import Mathlib

/-!
Verification of the scrapey-cli configuration subsystem: a shallow embedding of
`pkg/config/config.go` (zero-patch revision) and of the pointer-patch revision's
`OverrideConfig`, together with `pkg/utils/utils.go`'s `PrintNonEmptyFields`.

Modelling conventions:
  * A Go slice is `GoSlice`: the nil slice is distinguished from a non-nil
    slice holding a (possibly empty) list of elements, because Go's
    `reflect.Value.IsZero` distinguishes them while `len` does not.
  * Go `float64` is modelled as `Rat`: the source only compares the RateLimit
    field with `0` and assigns the literal `1.5`, both exact in `Rat`.
  * Go `int` is modelled as `Int` (the source never overflows: it only
    compares with `0` and assigns small literals).
  * A console line is a `Diag`: `utils.PrintColored(label, value, color)`
    emits the line `label ++ value`, so a `Diag` keeps the two arguments.
    Output is modelled as the list of emitted `Diag`s, in emission order.
-/

namespace Scrapey

/-- A Go slice value: `nil` is the nil slice (the type's zero value), `mk l`
is a non-nil slice whose elements are `l`.  `[]string{}` is `mk []`. -/
inductive GoSlice (α : Type) where
  | nil : GoSlice α
  | mk (elems : List α) : GoSlice α
deriving DecidableEq, Repr

/-- Go's `len` of a slice: 0 for the nil slice. -/
def GoSlice.len {α : Type} : GoSlice α → Nat
  | .nil => 0
  | .mk l => l.length

/-- `reflect.Value.IsZero` on a slice: true exactly for the nil slice. -/
def GoSlice.isZero {α : Type} : GoSlice α → Bool
  | .nil => true
  | .mk _ => false

/-- The `URL` section of `Config` (pkg/config/config.go). -/
structure URLConfig where
  base : String
  routes : GoSlice String
  includeBase : Bool
deriving DecidableEq, Repr

/-- The `ParseRules` section of `Config`. -/
structure ParseRulesConfig where
  title : String
  metaDescription : String
  articleContent : String
  author : String
  datePublished : String
deriving DecidableEq, Repr

/-- The `Storage` section of `Config`. -/
structure StorageConfig where
  outputFormats : GoSlice String
  savePath : String
  fileName : String
deriving DecidableEq, Repr

/-- The `ScrapingOptions` section of `Config`.  `rateLimit` is Go `float64`,
modelled as `Rat` (see the file comment). -/
structure ScrapingOptionsConfig where
  maxDepth : Int
  rateLimit : Rat
  retryAttempts : Int
  userAgent : String
deriving DecidableEq, Repr

/-- The `DataFormatting` section of `Config`. -/
structure DataFormattingConfig where
  cleanWhitespace : Bool
  removeHTML : Bool
deriving DecidableEq, Repr

/-- `Config` of `pkg/config/config.go` (the zero-patch revision: no Version
field).  Field order follows the Go declaration order. -/
structure Config where
  url : URLConfig
  parseRules : ParseRulesConfig
  storage : StorageConfig
  scrapingOptions : ScrapingOptionsConfig
  dataFormatting : DataFormattingConfig
deriving DecidableEq, Repr

/-- The Go zero value of `Config`: every field at its type's zero value. -/
def Config.zero : Config :=
  { url := { base := "", routes := .nil, includeBase := false }
    parseRules := { title := "", metaDescription := "", articleContent := ""
                    author := "", datePublished := "" }
    storage := { outputFormats := .nil, savePath := "", fileName := "" }
    scrapingOptions := { maxDepth := 0, rateLimit := 0, retryAttempts := 0, userAgent := "" }
    dataFormatting := { cleanWhitespace := false, removeHTML := false } }

/-- The fixed browser-like user-agent default of `ApplyDefaults`. -/
def defaultUserAgent : String :=
  "Mozilla/5.0 (Windows NT 10.0; Win64; x64) AppleWebKit/537.36"

/-- `(cfg *Config) ApplyDefaults()` of pkg/config/config.go: each listed field
is replaced by its default when it holds `""` / length-0 slice / `0`; the Go
method mutates `cfg` in place, modelled as returning the updated record.  Each
guard reads only the field its branch assigns, so the sequential Go statements
are translated as independent field updates. -/
def Config.applyDefaults (cfg : Config) : Config :=
  { cfg with
    url := { cfg.url with
      base := if cfg.url.base = "" then "https://example.com" else cfg.url.base
      routes := if cfg.url.routes.len = 0 then .mk ["/"] else cfg.url.routes }
    scrapingOptions := { cfg.scrapingOptions with
      maxDepth := if cfg.scrapingOptions.maxDepth = 0 then 2 else cfg.scrapingOptions.maxDepth
      rateLimit := if cfg.scrapingOptions.rateLimit = 0 then 3 / 2 else cfg.scrapingOptions.rateLimit
      retryAttempts := if cfg.scrapingOptions.retryAttempts = 0 then 3
        else cfg.scrapingOptions.retryAttempts
      userAgent := if cfg.scrapingOptions.userAgent = "" then defaultUserAgent
        else cfg.scrapingOptions.userAgent }
    storage := { cfg.storage with
      outputFormats := if cfg.storage.outputFormats.len = 0 then .mk ["json"]
        else cfg.storage.outputFormats
      savePath := if cfg.storage.savePath = "" then "output/" else cfg.storage.savePath
      fileName := if cfg.storage.fileName = "" then "scraped_data" else cfg.storage.fileName } }

/-- One console line: `utils.PrintColored(label, value, color)` emits the line
`label ++ value` (color codes are presentation only and are not modelled). -/
structure Diag where
  label : String
  value : String
deriving DecidableEq, Repr

/-- `fmt.Sprint` of a Go bool. -/
def goSprintBool (b : Bool) : String := if b then "true" else "false"

/-- `fmt.Sprint` of a Go int. -/
def goSprintInt (n : Int) : String := toString n

/-- `fmt.Sprint` of a Go float64, on the `Rat` model of float64 (the exact
digit rendering of floats is not needed by any claim). -/
def goSprintFloat (q : Rat) : String := toString q

/-- `fmt.Sprint` of a `[]string` value: Go renders `[]string{"a","b"}` as
`[a b]` and both the nil and the empty slice as `[]`. -/
def goSprintStringSlice : GoSlice String → String
  | .nil => "[]"
  | .mk l => "[" ++ String.intercalate " " l ++ "]"

/-- The `ConfigOverride.URL` section of the pointer-patch revision: every
field an optional pointer. -/
structure URLOverride where
  base : Option String
  routes : Option (GoSlice String)
  includeBase : Option Bool
deriving DecidableEq, Repr

/-- The `ConfigOverride.ParseRules` section of the pointer-patch revision. -/
structure ParseRulesOverride where
  title : Option String
  metaDescription : Option String
  articleContent : Option String
  author : Option String
  datePublished : Option String
deriving DecidableEq, Repr

/-- The `ConfigOverride.Storage` section of the pointer-patch revision. -/
structure StorageOverride where
  outputFormats : Option (GoSlice String)
  savePath : Option String
  fileName : Option String
deriving DecidableEq, Repr

/-- The `ConfigOverride.ScrapingOptions` section of the pointer-patch revision. -/
structure ScrapingOptionsOverride where
  maxDepth : Option Int
  rateLimit : Option Rat
  retryAttempts : Option Int
  userAgent : Option String
deriving DecidableEq, Repr

/-- The `ConfigOverride.DataFormatting` section of the pointer-patch revision. -/
structure DataFormattingOverride where
  cleanWhitespace : Option Bool
  removeHTML : Option Bool
deriving DecidableEq, Repr

/-- `ConfigOverride` of the pointer-patch revision: all fields are pointers,
nil meaning "no override". -/
structure ConfigOverride where
  version : Option String
  url : Option URLOverride
  parseRules : Option ParseRulesOverride
  storage : Option StorageOverride
  scrapingOptions : Option ScrapingOptionsOverride
  dataFormatting : Option DataFormattingOverride
deriving DecidableEq, Repr

/-- `Config` of the pointer-patch revision: the zero-patch `Config` plus the
leading `Version` string field. -/
structure ConfigV where
  version : String
  url : URLConfig
  parseRules : ParseRulesConfig
  storage : StorageConfig
  scrapingOptions : ScrapingOptionsConfig
  dataFormatting : DataFormattingConfig
deriving DecidableEq, Repr

/-- One field of `OverrideConfig`: a nil pointer is skipped (no change, no
line); a non-nil pointer unconditionally copies the pointed-to value and
emits one `PrintColored` line. -/
def patchField {α : Type} (label : String) (render : α → String) (old : α)
    (p : Option α) : α × List Diag :=
  match p with
  | none => (old, [])
  | some v => (v, [⟨label, render v⟩])

/-- The `overrides.URL` block of `OverrideConfig`: skipped whole when the
section pointer is nil, else each sub-field handled by `patchField`
in source order. -/
def overrideURL (u : URLConfig) : Option URLOverride → URLConfig × List Diag
  | none => (u, [])
  | some o =>
    let b := patchField "Overriding URL.Base: " id u.base o.base
    let r := patchField "Overriding URL.Routes: " goSprintStringSlice u.routes o.routes
    let ib := patchField "Overriding URL.IncludeBase: " goSprintBool u.includeBase o.includeBase
    (⟨b.1, r.1, ib.1⟩, b.2 ++ r.2 ++ ib.2)

/-- The `overrides.ParseRules` block of `OverrideConfig`. -/
def overrideParseRules (p : ParseRulesConfig) :
    Option ParseRulesOverride → ParseRulesConfig × List Diag
  | none => (p, [])
  | some o =>
    let t := patchField "Overriding ParseRules.Title: " id p.title o.title
    let m := patchField "Overriding ParseRules.MetaDescription: " id p.metaDescription
      o.metaDescription
    let a := patchField "Overriding ParseRules.ArticleContent: " id p.articleContent
      o.articleContent
    let au := patchField "Overriding ParseRules.Author: " id p.author o.author
    let d := patchField "Overriding ParseRules.DatePublished: " id p.datePublished
      o.datePublished
    (⟨t.1, m.1, a.1, au.1, d.1⟩, t.2 ++ m.2 ++ a.2 ++ au.2 ++ d.2)

/-- The `overrides.Storage` block of `OverrideConfig`. -/
def overrideStorage (s : StorageConfig) : Option StorageOverride → StorageConfig × List Diag
  | none => (s, [])
  | some o =>
    let f := patchField "Overriding Storage.OutputFormats: " goSprintStringSlice
      s.outputFormats o.outputFormats
    let p := patchField "Overriding Storage.SavePath: " id s.savePath o.savePath
    let n := patchField "Overriding Storage.FileName: " id s.fileName o.fileName
    (⟨f.1, p.1, n.1⟩, f.2 ++ p.2 ++ n.2)

/-- The `overrides.ScrapingOptions` block of `OverrideConfig`. -/
def overrideScrapingOptions (s : ScrapingOptionsConfig) :
    Option ScrapingOptionsOverride → ScrapingOptionsConfig × List Diag
  | none => (s, [])
  | some o =>
    let md := patchField "Overriding ScrapingOptions.MaxDepth: " goSprintInt s.maxDepth o.maxDepth
    let rl := patchField "Overriding ScrapingOptions.RateLimit: " goSprintFloat s.rateLimit
      o.rateLimit
    let ra := patchField "Overriding ScrapingOptions.RetryAttempts: " goSprintInt
      s.retryAttempts o.retryAttempts
    let ua := patchField "Overriding ScrapingOptions.UserAgent: " id s.userAgent o.userAgent
    (⟨md.1, rl.1, ra.1, ua.1⟩, md.2 ++ rl.2 ++ ra.2 ++ ua.2)

/-- The `overrides.DataFormatting` block of `OverrideConfig`. -/
def overrideDataFormatting (d : DataFormattingConfig) :
    Option DataFormattingOverride → DataFormattingConfig × List Diag
  | none => (d, [])
  | some o =>
    let cw := patchField "Overriding DataFormatting.CleanWhitespace: " goSprintBool
      d.cleanWhitespace o.cleanWhitespace
    let rh := patchField "Overriding DataFormatting.RemoveHTML: " goSprintBool
      d.removeHTML o.removeHTML
    (⟨cw.1, rh.1⟩, cw.2 ++ rh.2)

/-- `(cfg *Config) OverrideConfig(overrides ConfigOverride)` of the
pointer-patch revision: every block in source order; the Go method mutates
`cfg` and prints, modelled as returning the updated record and the emitted
lines in order. -/
def ConfigV.overrideConfig (cfg : ConfigV) (o : ConfigOverride) : ConfigV × List Diag :=
  let v := patchField "Overriding Version: " id cfg.version o.version
  let u := overrideURL cfg.url o.url
  let pr := overrideParseRules cfg.parseRules o.parseRules
  let st := overrideStorage cfg.storage o.storage
  let so := overrideScrapingOptions cfg.scrapingOptions o.scrapingOptions
  let df := overrideDataFormatting cfg.dataFormatting o.dataFormatting
  (⟨v.1, u.1, pr.1, st.1, so.1, df.1⟩, v.2 ++ u.2 ++ pr.2 ++ st.2 ++ so.2 ++ df.2)

/-- One non-slice sub-field of `OverrideWithCLI`: skipped (no change, no line)
when `reflect.Value.IsZero` holds of the patch value; otherwise one
`PrintColored` line and the copy. -/
def cliScalar {α : Type} (label : String) (render : α → String) (isZero : α → Bool)
    (old pv : α) : α × List Diag :=
  if isZero pv then (old, []) else (pv, [⟨label, render pv⟩])

/-- One slice sub-field of `OverrideWithCLI`: the explicit length-0 guard
(`continue` on an empty slice, nil or not) runs first, then the shared
`IsZero` guard, then the copy plus line. -/
def cliSlice (label : String) (old pv : GoSlice String) : GoSlice String × List Diag :=
  if pv.len = 0 then (old, [])
  else if pv.isZero then (old, [])
  else (pv, [⟨label, goSprintStringSlice pv⟩])

/-- `reflect.Value.IsZero` on a Go string. -/
def strIsZero (s : String) : Bool := s == ""

/-- `reflect.Value.IsZero` on a Go int. -/
def intIsZero (n : Int) : Bool := n == 0

/-- `reflect.Value.IsZero` on a Go float64 (on the `Rat` model). -/
def ratIsZero (q : Rat) : Bool := decide (q = 0)

/-- `reflect.Value.IsZero` on a Go bool. -/
def boolIsZero (b : Bool) : Bool := !b

/-- `(cfg *Config) OverrideWithCLI(overrides Config)` of
pkg/config/config.go: reflection iterates the top-level sections in
declaration order and their sub-fields in declaration order; every top-level
field of `Config` is a struct, so only the struct branch runs.  The Go method
mutates `cfg` and prints, modelled as returning the updated record and the
emitted lines in order. -/
def Config.overrideWithCLI (cfg o : Config) : Config × List Diag :=
  let ub := cliScalar "Overriding URL.Base: " id strIsZero cfg.url.base o.url.base
  let ur := cliSlice "Overriding URL.Routes: " cfg.url.routes o.url.routes
  let ui := cliScalar "Overriding URL.IncludeBase: " goSprintBool boolIsZero
    cfg.url.includeBase o.url.includeBase
  let pt := cliScalar "Overriding ParseRules.Title: " id strIsZero
    cfg.parseRules.title o.parseRules.title
  let pm := cliScalar "Overriding ParseRules.MetaDescription: " id strIsZero
    cfg.parseRules.metaDescription o.parseRules.metaDescription
  let pa := cliScalar "Overriding ParseRules.ArticleContent: " id strIsZero
    cfg.parseRules.articleContent o.parseRules.articleContent
  let pau := cliScalar "Overriding ParseRules.Author: " id strIsZero
    cfg.parseRules.author o.parseRules.author
  let pd := cliScalar "Overriding ParseRules.DatePublished: " id strIsZero
    cfg.parseRules.datePublished o.parseRules.datePublished
  let sf := cliSlice "Overriding Storage.OutputFormats: " cfg.storage.outputFormats
    o.storage.outputFormats
  let sp := cliScalar "Overriding Storage.SavePath: " id strIsZero
    cfg.storage.savePath o.storage.savePath
  let sn := cliScalar "Overriding Storage.FileName: " id strIsZero
    cfg.storage.fileName o.storage.fileName
  let om := cliScalar "Overriding ScrapingOptions.MaxDepth: " goSprintInt intIsZero
    cfg.scrapingOptions.maxDepth o.scrapingOptions.maxDepth
  let og := cliScalar "Overriding ScrapingOptions.RateLimit: " goSprintFloat ratIsZero
    cfg.scrapingOptions.rateLimit o.scrapingOptions.rateLimit
  let oa := cliScalar "Overriding ScrapingOptions.RetryAttempts: " goSprintInt intIsZero
    cfg.scrapingOptions.retryAttempts o.scrapingOptions.retryAttempts
  let ou := cliScalar "Overriding ScrapingOptions.UserAgent: " id strIsZero
    cfg.scrapingOptions.userAgent o.scrapingOptions.userAgent
  let dc := cliScalar "Overriding DataFormatting.CleanWhitespace: " goSprintBool boolIsZero
    cfg.dataFormatting.cleanWhitespace o.dataFormatting.cleanWhitespace
  let dr := cliScalar "Overriding DataFormatting.RemoveHTML: " goSprintBool boolIsZero
    cfg.dataFormatting.removeHTML o.dataFormatting.removeHTML
  (⟨⟨ub.1, ur.1, ui.1⟩, ⟨pt.1, pm.1, pa.1, pau.1, pd.1⟩, ⟨sf.1, sp.1, sn.1⟩,
    ⟨om.1, og.1, oa.1, ou.1⟩, ⟨dc.1, dr.1⟩⟩,
   ub.2 ++ ur.2 ++ ui.2 ++ pt.2 ++ pm.2 ++ pa.2 ++ pau.2 ++ pd.2 ++ sf.2 ++ sp.2 ++ sn.2
     ++ om.2 ++ og.2 ++ oa.2 ++ ou.2 ++ dc.2 ++ dr.2)

/-- The lines of the output `ds` that belong to the field labelled `l`
(every line of `OverrideConfig`/`OverrideWithCLI` for a given field starts
with that field's fixed label). -/
def diagsFor (l : String) (ds : List Diag) : List Diag :=
  ds.filter (fun d => d.label == l)

theorem diagsFor_append (l : String) (a b : List Diag) :
    diagsFor l (a ++ b) = diagsFor l a ++ diagsFor l b := by
  simp [diagsFor]

theorem patchField_fst {α : Type} (label : String) (render : α → String) (old : α)
    (p : Option α) : (patchField label render old p).1 = p.getD old := by
  cases p <;> rfl

theorem diagsFor_patchField_ne {α : Type} {label l : String} (h : ¬ label = l)
    (render : α → String) (old : α) (p : Option α) :
    diagsFor l (patchField label render old p).2 = [] := by
  cases p <;> simp [patchField, diagsFor, h]

/-- C3: a Configuration with every field at its zero value maps, under
`ApplyDefaults`, to the defaults table of §4.2 in every listed field. -/
theorem applyDefaults_on_zero_config (cfg : Config) (h : cfg = Config.zero) :
    cfg.applyDefaults.url.base = "https://example.com" ∧
    cfg.applyDefaults.url.routes = GoSlice.mk ["/"] ∧
    cfg.applyDefaults.scrapingOptions.maxDepth = 2 ∧
    cfg.applyDefaults.scrapingOptions.rateLimit = 3 / 2 ∧
    cfg.applyDefaults.scrapingOptions.retryAttempts = 3 ∧
    cfg.applyDefaults.scrapingOptions.userAgent = defaultUserAgent ∧
    cfg.applyDefaults.storage.outputFormats = GoSlice.mk ["json"] ∧
    cfg.applyDefaults.storage.savePath = "output/" ∧
    cfg.applyDefaults.storage.fileName = "scraped_data" := by
  subst h
  exact ⟨by decide, by decide, by decide, by simp [Config.applyDefaults, Config.zero],
    by decide, by decide, by decide, by decide, by decide⟩

/-- Witness for C3 at the concrete all-zero Configuration. -/
theorem applyDefaults_on_zero_config_witness :
    Config.zero.applyDefaults.url.base = "https://example.com" ∧
    Config.zero.applyDefaults.url.routes = GoSlice.mk ["/"] ∧
    Config.zero.applyDefaults.scrapingOptions.maxDepth = 2 ∧
    Config.zero.applyDefaults.scrapingOptions.rateLimit = 3 / 2 ∧
    Config.zero.applyDefaults.scrapingOptions.retryAttempts = 3 ∧
    Config.zero.applyDefaults.scrapingOptions.userAgent = defaultUserAgent ∧
    Config.zero.applyDefaults.storage.outputFormats = GoSlice.mk ["json"] ∧
    Config.zero.applyDefaults.storage.savePath = "output/" ∧
    Config.zero.applyDefaults.storage.fileName = "scraped_data" :=
  applyDefaults_on_zero_config Config.zero rfl

/-- A Configuration whose `URL.Routes` is the non-nil empty slice and whose
other fields are zero: `[]string{}` is not Go's zero value for a slice. -/
def emptyRoutesConfig : Config :=
  { Config.zero with url := { Config.zero.url with routes := GoSlice.mk [] } }

/-- Counterexample to C4 as stated: `URL.Routes` holds a value other than its
language zero value (the non-nil empty slice), yet `ApplyDefaults` changes
it, because the guard in the source tests `len == 0`, not zero-ness. -/
theorem applyDefaults_changes_nonNil_empty_routes :
    emptyRoutesConfig.url.routes ≠ GoSlice.nil ∧
    emptyRoutesConfig.applyDefaults.url.routes ≠ emptyRoutesConfig.url.routes := by
  decide

/-- C4 amended: `ApplyDefaults` preserves every listed string or numeric
field that is non-zero, and preserves a listed sequence field exactly when
its length is non-zero (a length-0 sequence, nil or non-nil, is replaced). -/
theorem applyDefaults_preserves_nonzero (cfg : Config) :
    (cfg.url.base ≠ "" → cfg.applyDefaults.url.base = cfg.url.base) ∧
    (cfg.url.routes.len ≠ 0 → cfg.applyDefaults.url.routes = cfg.url.routes) ∧
    (cfg.scrapingOptions.maxDepth ≠ 0 →
      cfg.applyDefaults.scrapingOptions.maxDepth = cfg.scrapingOptions.maxDepth) ∧
    (cfg.scrapingOptions.rateLimit ≠ 0 →
      cfg.applyDefaults.scrapingOptions.rateLimit = cfg.scrapingOptions.rateLimit) ∧
    (cfg.scrapingOptions.retryAttempts ≠ 0 →
      cfg.applyDefaults.scrapingOptions.retryAttempts = cfg.scrapingOptions.retryAttempts) ∧
    (cfg.scrapingOptions.userAgent ≠ "" →
      cfg.applyDefaults.scrapingOptions.userAgent = cfg.scrapingOptions.userAgent) ∧
    (cfg.storage.outputFormats.len ≠ 0 →
      cfg.applyDefaults.storage.outputFormats = cfg.storage.outputFormats) ∧
    (cfg.storage.savePath ≠ "" → cfg.applyDefaults.storage.savePath = cfg.storage.savePath) ∧
    (cfg.storage.fileName ≠ "" → cfg.applyDefaults.storage.fileName = cfg.storage.fileName) := by
  refine ⟨?_, ?_, ?_, ?_, ?_, ?_, ?_, ?_, ?_⟩ <;>
    · intro h
      simp [Config.applyDefaults, h]

/-- C6: after `ApplyDefaults`, every field of the defaults table is non-empty
(for strings and sequences) or non-zero (for numbers), whatever the input. -/
theorem applyDefaults_postcondition (cfg : Config) :
    cfg.applyDefaults.url.base ≠ "" ∧
    cfg.applyDefaults.url.routes.len ≠ 0 ∧
    cfg.applyDefaults.scrapingOptions.maxDepth ≠ 0 ∧
    cfg.applyDefaults.scrapingOptions.rateLimit ≠ 0 ∧
    cfg.applyDefaults.scrapingOptions.retryAttempts ≠ 0 ∧
    cfg.applyDefaults.scrapingOptions.userAgent ≠ "" ∧
    cfg.applyDefaults.storage.outputFormats.len ≠ 0 ∧
    cfg.applyDefaults.storage.savePath ≠ "" ∧
    cfg.applyDefaults.storage.fileName ≠ "" := by
  refine ⟨?_, ?_, ?_, ?_, ?_, ?_, ?_, ?_, ?_⟩ <;>
    · simp only [Config.applyDefaults]
      split <;> simp_all [defaultUserAgent, GoSlice.len]

/-- C5: `ApplyDefaults` is idempotent. -/
theorem applyDefaults_idempotent (cfg : Config) :
    cfg.applyDefaults.applyDefaults = cfg.applyDefaults := by
  obtain ⟨⟨b, r, ib⟩, pr, ⟨os, sp, fn⟩, ⟨md, rl, ra, ua⟩, df⟩ := cfg
  simp only [Config.applyDefaults, Config.mk.injEq, URLConfig.mk.injEq,
    StorageConfig.mk.injEq, ScrapingOptionsConfig.mk.injEq, and_true, true_and]
  repeat' apply And.intro
  all_goals split_ifs <;> simp_all [defaultUserAgent, GoSlice.len]

theorem diagsFor_overrideURL_ne {l : String} (h1 : ¬ "Overriding URL.Base: " = l)
    (h2 : ¬ "Overriding URL.Routes: " = l) (h3 : ¬ "Overriding URL.IncludeBase: " = l)
    (u : URLConfig) (o : Option URLOverride) :
    diagsFor l (overrideURL u o).2 = [] := by
  cases o with
  | none => simp [overrideURL, diagsFor]
  | some ov =>
    simp only [overrideURL]
    rw [diagsFor_append, diagsFor_append, diagsFor_patchField_ne h1,
      diagsFor_patchField_ne h2, diagsFor_patchField_ne h3]
    rfl

theorem diagsFor_overrideParseRules_ne {l : String}
    (h1 : ¬ "Overriding ParseRules.Title: " = l)
    (h2 : ¬ "Overriding ParseRules.MetaDescription: " = l)
    (h3 : ¬ "Overriding ParseRules.ArticleContent: " = l)
    (h4 : ¬ "Overriding ParseRules.Author: " = l)
    (h5 : ¬ "Overriding ParseRules.DatePublished: " = l)
    (p : ParseRulesConfig) (o : Option ParseRulesOverride) :
    diagsFor l (overrideParseRules p o).2 = [] := by
  cases o with
  | none => simp [overrideParseRules, diagsFor]
  | some ov =>
    simp only [overrideParseRules]
    rw [diagsFor_append, diagsFor_append, diagsFor_append, diagsFor_append,
      diagsFor_patchField_ne h1, diagsFor_patchField_ne h2, diagsFor_patchField_ne h3,
      diagsFor_patchField_ne h4, diagsFor_patchField_ne h5]
    rfl

theorem diagsFor_overrideStorage_ne {l : String}
    (h1 : ¬ "Overriding Storage.OutputFormats: " = l)
    (h2 : ¬ "Overriding Storage.SavePath: " = l)
    (h3 : ¬ "Overriding Storage.FileName: " = l)
    (s : StorageConfig) (o : Option StorageOverride) :
    diagsFor l (overrideStorage s o).2 = [] := by
  cases o with
  | none => simp [overrideStorage, diagsFor]
  | some ov =>
    simp only [overrideStorage]
    rw [diagsFor_append, diagsFor_append, diagsFor_patchField_ne h1,
      diagsFor_patchField_ne h2, diagsFor_patchField_ne h3]
    rfl

theorem diagsFor_overrideScrapingOptions_ne {l : String}
    (h1 : ¬ "Overriding ScrapingOptions.MaxDepth: " = l)
    (h2 : ¬ "Overriding ScrapingOptions.RateLimit: " = l)
    (h3 : ¬ "Overriding ScrapingOptions.RetryAttempts: " = l)
    (h4 : ¬ "Overriding ScrapingOptions.UserAgent: " = l)
    (s : ScrapingOptionsConfig) (o : Option ScrapingOptionsOverride) :
    diagsFor l (overrideScrapingOptions s o).2 = [] := by
  cases o with
  | none => simp [overrideScrapingOptions, diagsFor]
  | some ov =>
    simp only [overrideScrapingOptions]
    rw [diagsFor_append, diagsFor_append, diagsFor_append, diagsFor_patchField_ne h1,
      diagsFor_patchField_ne h2, diagsFor_patchField_ne h3, diagsFor_patchField_ne h4]
    rfl

theorem diagsFor_overrideDataFormatting_ne {l : String}
    (h1 : ¬ "Overriding DataFormatting.CleanWhitespace: " = l)
    (h2 : ¬ "Overriding DataFormatting.RemoveHTML: " = l)
    (d : DataFormattingConfig) (o : Option DataFormattingOverride) :
    diagsFor l (overrideDataFormatting d o).2 = [] := by
  cases o with
  | none => simp [overrideDataFormatting, diagsFor]
  | some ov =>
    simp only [overrideDataFormatting]
    rw [diagsFor_append, diagsFor_patchField_ne h1, diagsFor_patchField_ne h2]
    rfl

theorem diagsFor_cliScalar_ne {α : Type} {label l : String} (h : ¬ label = l)
    (render : α → String) (isZero : α → Bool) (old pv : α) :
    diagsFor l (cliScalar label render isZero old pv).2 = [] := by
  unfold cliScalar; split <;> simp [diagsFor, h]

theorem diagsFor_cliSlice_ne {label l : String} (h : ¬ label = l) (old pv : GoSlice String) :
    diagsFor l (cliSlice label old pv).2 = [] := by
  unfold cliSlice; split_ifs <;> simp [diagsFor, h]

theorem GoSlice.isZero_eq_false_of_len_ne_zero {α : Type} {s : GoSlice α}
    (h : s.len ≠ 0) : s.isZero = false := by
  cases s <;> simp_all [GoSlice.len, GoSlice.isZero]

theorem diagsFor_nil (l : String) : diagsFor l [] = [] := rfl

theorem diagsFor_singleton_self (l v : String) :
    diagsFor l [⟨l, v⟩] = [⟨l, v⟩] := by simp [diagsFor]

theorem diagsFor_patchField_some {α : Type} (label : String) (render : α → String)
    (old : α) (v : α) :
    diagsFor label (patchField label render old (some v)).2 = [⟨label, render v⟩] := by
  simp [patchField, diagsFor]

theorem diagsFor_patchField_none {α : Type} (label : String) (render : α → String)
    (old : α) : diagsFor label (patchField label render old none).2 = [] := rfl

/-- C1: pointer-patch override semantics of `OverrideConfig`: a nil field
pointer (or a nil enclosing section pointer) leaves the field unchanged and
emits no diagnostic line for it; a non-nil pointer copies the pointed-to
value into the configuration and emits exactly one diagnostic line for that
field, whatever the value (including an empty one, such as an explicitly
present empty Routes sequence). -/
theorem overrideConfig_pointer_patch_semantics (cfg : ConfigV) (o : ConfigOverride) :
    (o.version = none →
      (cfg.overrideConfig o).1.version = cfg.version ∧
      diagsFor "Overriding Version: " (cfg.overrideConfig o).2 = []) ∧
    (∀ x, o.version = some x →
      (cfg.overrideConfig o).1.version = x ∧
      diagsFor "Overriding Version: " (cfg.overrideConfig o).2 = [⟨"Overriding Version: ", x⟩]) ∧
    (o.url = none →
      (cfg.overrideConfig o).1.url = cfg.url ∧
      diagsFor "Overriding URL.Base: " (cfg.overrideConfig o).2 = [] ∧
      diagsFor "Overriding URL.Routes: " (cfg.overrideConfig o).2 = [] ∧
      diagsFor "Overriding URL.IncludeBase: " (cfg.overrideConfig o).2 = []) ∧
    (∀ ou, o.url = some ou →
      (ou.base = none →
        (cfg.overrideConfig o).1.url.base = cfg.url.base ∧
        diagsFor "Overriding URL.Base: " (cfg.overrideConfig o).2 = []) ∧
      (∀ x, ou.base = some x →
        (cfg.overrideConfig o).1.url.base = x ∧
        diagsFor "Overriding URL.Base: " (cfg.overrideConfig o).2 = [⟨"Overriding URL.Base: ", x⟩]) ∧
      (ou.routes = none →
        (cfg.overrideConfig o).1.url.routes = cfg.url.routes ∧
        diagsFor "Overriding URL.Routes: " (cfg.overrideConfig o).2 = []) ∧
      (∀ x, ou.routes = some x →
        (cfg.overrideConfig o).1.url.routes = x ∧
        diagsFor "Overriding URL.Routes: " (cfg.overrideConfig o).2 = [⟨"Overriding URL.Routes: ", goSprintStringSlice x⟩]) ∧
      (ou.includeBase = none →
        (cfg.overrideConfig o).1.url.includeBase = cfg.url.includeBase ∧
        diagsFor "Overriding URL.IncludeBase: " (cfg.overrideConfig o).2 = []) ∧
      (∀ x, ou.includeBase = some x →
        (cfg.overrideConfig o).1.url.includeBase = x ∧
        diagsFor "Overriding URL.IncludeBase: " (cfg.overrideConfig o).2 = [⟨"Overriding URL.IncludeBase: ", goSprintBool x⟩])) ∧
    (o.parseRules = none →
      (cfg.overrideConfig o).1.parseRules = cfg.parseRules ∧
      diagsFor "Overriding ParseRules.Title: " (cfg.overrideConfig o).2 = [] ∧
      diagsFor "Overriding ParseRules.MetaDescription: " (cfg.overrideConfig o).2 = [] ∧
      diagsFor "Overriding ParseRules.ArticleContent: " (cfg.overrideConfig o).2 = [] ∧
      diagsFor "Overriding ParseRules.Author: " (cfg.overrideConfig o).2 = [] ∧
      diagsFor "Overriding ParseRules.DatePublished: " (cfg.overrideConfig o).2 = []) ∧
    (∀ ou, o.parseRules = some ou →
      (ou.title = none →
        (cfg.overrideConfig o).1.parseRules.title = cfg.parseRules.title ∧
        diagsFor "Overriding ParseRules.Title: " (cfg.overrideConfig o).2 = []) ∧
      (∀ x, ou.title = some x →
        (cfg.overrideConfig o).1.parseRules.title = x ∧
        diagsFor "Overriding ParseRules.Title: " (cfg.overrideConfig o).2 = [⟨"Overriding ParseRules.Title: ", x⟩]) ∧
      (ou.metaDescription = none →
        (cfg.overrideConfig o).1.parseRules.metaDescription = cfg.parseRules.metaDescription ∧
        diagsFor "Overriding ParseRules.MetaDescription: " (cfg.overrideConfig o).2 = []) ∧
      (∀ x, ou.metaDescription = some x →
        (cfg.overrideConfig o).1.parseRules.metaDescription = x ∧
        diagsFor "Overriding ParseRules.MetaDescription: " (cfg.overrideConfig o).2 = [⟨"Overriding ParseRules.MetaDescription: ", x⟩]) ∧
      (ou.articleContent = none →
        (cfg.overrideConfig o).1.parseRules.articleContent = cfg.parseRules.articleContent ∧
        diagsFor "Overriding ParseRules.ArticleContent: " (cfg.overrideConfig o).2 = []) ∧
      (∀ x, ou.articleContent = some x →
        (cfg.overrideConfig o).1.parseRules.articleContent = x ∧
        diagsFor "Overriding ParseRules.ArticleContent: " (cfg.overrideConfig o).2 = [⟨"Overriding ParseRules.ArticleContent: ", x⟩]) ∧
      (ou.author = none →
        (cfg.overrideConfig o).1.parseRules.author = cfg.parseRules.author ∧
        diagsFor "Overriding ParseRules.Author: " (cfg.overrideConfig o).2 = []) ∧
      (∀ x, ou.author = some x →
        (cfg.overrideConfig o).1.parseRules.author = x ∧
        diagsFor "Overriding ParseRules.Author: " (cfg.overrideConfig o).2 = [⟨"Overriding ParseRules.Author: ", x⟩]) ∧
      (ou.datePublished = none →
        (cfg.overrideConfig o).1.parseRules.datePublished = cfg.parseRules.datePublished ∧
        diagsFor "Overriding ParseRules.DatePublished: " (cfg.overrideConfig o).2 = []) ∧
      (∀ x, ou.datePublished = some x →
        (cfg.overrideConfig o).1.parseRules.datePublished = x ∧
        diagsFor "Overriding ParseRules.DatePublished: " (cfg.overrideConfig o).2 = [⟨"Overriding ParseRules.DatePublished: ", x⟩])) ∧
    (o.storage = none →
      (cfg.overrideConfig o).1.storage = cfg.storage ∧
      diagsFor "Overriding Storage.OutputFormats: " (cfg.overrideConfig o).2 = [] ∧
      diagsFor "Overriding Storage.SavePath: " (cfg.overrideConfig o).2 = [] ∧
      diagsFor "Overriding Storage.FileName: " (cfg.overrideConfig o).2 = []) ∧
    (∀ ou, o.storage = some ou →
      (ou.outputFormats = none →
        (cfg.overrideConfig o).1.storage.outputFormats = cfg.storage.outputFormats ∧
        diagsFor "Overriding Storage.OutputFormats: " (cfg.overrideConfig o).2 = []) ∧
      (∀ x, ou.outputFormats = some x →
        (cfg.overrideConfig o).1.storage.outputFormats = x ∧
        diagsFor "Overriding Storage.OutputFormats: " (cfg.overrideConfig o).2 = [⟨"Overriding Storage.OutputFormats: ", goSprintStringSlice x⟩]) ∧
      (ou.savePath = none →
        (cfg.overrideConfig o).1.storage.savePath = cfg.storage.savePath ∧
        diagsFor "Overriding Storage.SavePath: " (cfg.overrideConfig o).2 = []) ∧
      (∀ x, ou.savePath = some x →
        (cfg.overrideConfig o).1.storage.savePath = x ∧
        diagsFor "Overriding Storage.SavePath: " (cfg.overrideConfig o).2 = [⟨"Overriding Storage.SavePath: ", x⟩]) ∧
      (ou.fileName = none →
        (cfg.overrideConfig o).1.storage.fileName = cfg.storage.fileName ∧
        diagsFor "Overriding Storage.FileName: " (cfg.overrideConfig o).2 = []) ∧
      (∀ x, ou.fileName = some x →
        (cfg.overrideConfig o).1.storage.fileName = x ∧
        diagsFor "Overriding Storage.FileName: " (cfg.overrideConfig o).2 = [⟨"Overriding Storage.FileName: ", x⟩])) ∧
    (o.scrapingOptions = none →
      (cfg.overrideConfig o).1.scrapingOptions = cfg.scrapingOptions ∧
      diagsFor "Overriding ScrapingOptions.MaxDepth: " (cfg.overrideConfig o).2 = [] ∧
      diagsFor "Overriding ScrapingOptions.RateLimit: " (cfg.overrideConfig o).2 = [] ∧
      diagsFor "Overriding ScrapingOptions.RetryAttempts: " (cfg.overrideConfig o).2 = [] ∧
      diagsFor "Overriding ScrapingOptions.UserAgent: " (cfg.overrideConfig o).2 = []) ∧
    (∀ ou, o.scrapingOptions = some ou →
      (ou.maxDepth = none →
        (cfg.overrideConfig o).1.scrapingOptions.maxDepth = cfg.scrapingOptions.maxDepth ∧
        diagsFor "Overriding ScrapingOptions.MaxDepth: " (cfg.overrideConfig o).2 = []) ∧
      (∀ x, ou.maxDepth = some x →
        (cfg.overrideConfig o).1.scrapingOptions.maxDepth = x ∧
        diagsFor "Overriding ScrapingOptions.MaxDepth: " (cfg.overrideConfig o).2 = [⟨"Overriding ScrapingOptions.MaxDepth: ", goSprintInt x⟩]) ∧
      (ou.rateLimit = none →
        (cfg.overrideConfig o).1.scrapingOptions.rateLimit = cfg.scrapingOptions.rateLimit ∧
        diagsFor "Overriding ScrapingOptions.RateLimit: " (cfg.overrideConfig o).2 = []) ∧
      (∀ x, ou.rateLimit = some x →
        (cfg.overrideConfig o).1.scrapingOptions.rateLimit = x ∧
        diagsFor "Overriding ScrapingOptions.RateLimit: " (cfg.overrideConfig o).2 = [⟨"Overriding ScrapingOptions.RateLimit: ", goSprintFloat x⟩]) ∧
      (ou.retryAttempts = none →
        (cfg.overrideConfig o).1.scrapingOptions.retryAttempts = cfg.scrapingOptions.retryAttempts ∧
        diagsFor "Overriding ScrapingOptions.RetryAttempts: " (cfg.overrideConfig o).2 = []) ∧
      (∀ x, ou.retryAttempts = some x →
        (cfg.overrideConfig o).1.scrapingOptions.retryAttempts = x ∧
        diagsFor "Overriding ScrapingOptions.RetryAttempts: " (cfg.overrideConfig o).2 = [⟨"Overriding ScrapingOptions.RetryAttempts: ", goSprintInt x⟩]) ∧
      (ou.userAgent = none →
        (cfg.overrideConfig o).1.scrapingOptions.userAgent = cfg.scrapingOptions.userAgent ∧
        diagsFor "Overriding ScrapingOptions.UserAgent: " (cfg.overrideConfig o).2 = []) ∧
      (∀ x, ou.userAgent = some x →
        (cfg.overrideConfig o).1.scrapingOptions.userAgent = x ∧
        diagsFor "Overriding ScrapingOptions.UserAgent: " (cfg.overrideConfig o).2 = [⟨"Overriding ScrapingOptions.UserAgent: ", x⟩])) ∧
    (o.dataFormatting = none →
      (cfg.overrideConfig o).1.dataFormatting = cfg.dataFormatting ∧
      diagsFor "Overriding DataFormatting.CleanWhitespace: " (cfg.overrideConfig o).2 = [] ∧
      diagsFor "Overriding DataFormatting.RemoveHTML: " (cfg.overrideConfig o).2 = []) ∧
    (∀ ou, o.dataFormatting = some ou →
      (ou.cleanWhitespace = none →
        (cfg.overrideConfig o).1.dataFormatting.cleanWhitespace = cfg.dataFormatting.cleanWhitespace ∧
        diagsFor "Overriding DataFormatting.CleanWhitespace: " (cfg.overrideConfig o).2 = []) ∧
      (∀ x, ou.cleanWhitespace = some x →
        (cfg.overrideConfig o).1.dataFormatting.cleanWhitespace = x ∧
        diagsFor "Overriding DataFormatting.CleanWhitespace: " (cfg.overrideConfig o).2 = [⟨"Overriding DataFormatting.CleanWhitespace: ", goSprintBool x⟩]) ∧
      (ou.removeHTML = none →
        (cfg.overrideConfig o).1.dataFormatting.removeHTML = cfg.dataFormatting.removeHTML ∧
        diagsFor "Overriding DataFormatting.RemoveHTML: " (cfg.overrideConfig o).2 = []) ∧
      (∀ x, ou.removeHTML = some x →
        (cfg.overrideConfig o).1.dataFormatting.removeHTML = x ∧
        diagsFor "Overriding DataFormatting.RemoveHTML: " (cfg.overrideConfig o).2 = [⟨"Overriding DataFormatting.RemoveHTML: ", goSprintBool x⟩])) := by
  obtain ⟨v0, u0, p0, s0, c0, d0⟩ := o
  refine ⟨?_, ?_, ?_, ?_, ?_, ?_, ?_, ?_, ?_, ?_, ?_, ?_⟩
  · intro h; subst h
    refine ⟨rfl, by simp [ConfigV.overrideConfig, diagsFor_append, diagsFor_nil, diagsFor_singleton_self, diagsFor_patchField_ne, diagsFor_patchField_some, diagsFor_patchField_none, diagsFor_overrideURL_ne, diagsFor_overrideParseRules_ne, diagsFor_overrideStorage_ne, diagsFor_overrideScrapingOptions_ne, diagsFor_overrideDataFormatting_ne]⟩
  · intro x h; subst h
    refine ⟨rfl, by simp [ConfigV.overrideConfig, diagsFor_append, diagsFor_nil, diagsFor_singleton_self, diagsFor_patchField_ne, diagsFor_patchField_some, diagsFor_patchField_none, diagsFor_overrideURL_ne, diagsFor_overrideParseRules_ne, diagsFor_overrideStorage_ne, diagsFor_overrideScrapingOptions_ne, diagsFor_overrideDataFormatting_ne]⟩
  · intro h; subst h
    refine ⟨rfl, by simp [ConfigV.overrideConfig, diagsFor_append, diagsFor_nil, diagsFor_singleton_self, diagsFor_patchField_ne, diagsFor_patchField_some, diagsFor_patchField_none, diagsFor_overrideURL_ne, diagsFor_overrideParseRules_ne, diagsFor_overrideStorage_ne, diagsFor_overrideScrapingOptions_ne, diagsFor_overrideDataFormatting_ne, overrideURL], by simp [ConfigV.overrideConfig, diagsFor_append, diagsFor_nil, diagsFor_singleton_self, diagsFor_patchField_ne, diagsFor_patchField_some, diagsFor_patchField_none, diagsFor_overrideURL_ne, diagsFor_overrideParseRules_ne, diagsFor_overrideStorage_ne, diagsFor_overrideScrapingOptions_ne, diagsFor_overrideDataFormatting_ne, overrideURL], by simp [ConfigV.overrideConfig, diagsFor_append, diagsFor_nil, diagsFor_singleton_self, diagsFor_patchField_ne, diagsFor_patchField_some, diagsFor_patchField_none, diagsFor_overrideURL_ne, diagsFor_overrideParseRules_ne, diagsFor_overrideStorage_ne, diagsFor_overrideScrapingOptions_ne, diagsFor_overrideDataFormatting_ne, overrideURL]⟩
  · intro ou h; subst h
    obtain ⟨g0, g1, g2⟩ := ou
    refine ⟨?_, ?_, ?_, ?_, ?_, ?_⟩
    · intro h; subst h
      refine ⟨rfl, by simp [ConfigV.overrideConfig, diagsFor_append, diagsFor_nil, diagsFor_singleton_self, diagsFor_patchField_ne, diagsFor_patchField_some, diagsFor_patchField_none, diagsFor_overrideURL_ne, diagsFor_overrideParseRules_ne, diagsFor_overrideStorage_ne, diagsFor_overrideScrapingOptions_ne, diagsFor_overrideDataFormatting_ne, overrideURL]⟩
    · intro x h; subst h
      refine ⟨rfl, by simp [ConfigV.overrideConfig, diagsFor_append, diagsFor_nil, diagsFor_singleton_self, diagsFor_patchField_ne, diagsFor_patchField_some, diagsFor_patchField_none, diagsFor_overrideURL_ne, diagsFor_overrideParseRules_ne, diagsFor_overrideStorage_ne, diagsFor_overrideScrapingOptions_ne, diagsFor_overrideDataFormatting_ne, overrideURL]⟩
    · intro h; subst h
      refine ⟨rfl, by simp [ConfigV.overrideConfig, diagsFor_append, diagsFor_nil, diagsFor_singleton_self, diagsFor_patchField_ne, diagsFor_patchField_some, diagsFor_patchField_none, diagsFor_overrideURL_ne, diagsFor_overrideParseRules_ne, diagsFor_overrideStorage_ne, diagsFor_overrideScrapingOptions_ne, diagsFor_overrideDataFormatting_ne, overrideURL]⟩
    · intro x h; subst h
      refine ⟨rfl, by simp [ConfigV.overrideConfig, diagsFor_append, diagsFor_nil, diagsFor_singleton_self, diagsFor_patchField_ne, diagsFor_patchField_some, diagsFor_patchField_none, diagsFor_overrideURL_ne, diagsFor_overrideParseRules_ne, diagsFor_overrideStorage_ne, diagsFor_overrideScrapingOptions_ne, diagsFor_overrideDataFormatting_ne, overrideURL]⟩
    · intro h; subst h
      refine ⟨rfl, by simp [ConfigV.overrideConfig, diagsFor_append, diagsFor_nil, diagsFor_singleton_self, diagsFor_patchField_ne, diagsFor_patchField_some, diagsFor_patchField_none, diagsFor_overrideURL_ne, diagsFor_overrideParseRules_ne, diagsFor_overrideStorage_ne, diagsFor_overrideScrapingOptions_ne, diagsFor_overrideDataFormatting_ne, overrideURL]⟩
    · intro x h; subst h
      refine ⟨rfl, by simp [ConfigV.overrideConfig, diagsFor_append, diagsFor_nil, diagsFor_singleton_self, diagsFor_patchField_ne, diagsFor_patchField_some, diagsFor_patchField_none, diagsFor_overrideURL_ne, diagsFor_overrideParseRules_ne, diagsFor_overrideStorage_ne, diagsFor_overrideScrapingOptions_ne, diagsFor_overrideDataFormatting_ne, overrideURL]⟩
  · intro h; subst h
    refine ⟨rfl, by simp [ConfigV.overrideConfig, diagsFor_append, diagsFor_nil, diagsFor_singleton_self, diagsFor_patchField_ne, diagsFor_patchField_some, diagsFor_patchField_none, diagsFor_overrideURL_ne, diagsFor_overrideParseRules_ne, diagsFor_overrideStorage_ne, diagsFor_overrideScrapingOptions_ne, diagsFor_overrideDataFormatting_ne, overrideParseRules], by simp [ConfigV.overrideConfig, diagsFor_append, diagsFor_nil, diagsFor_singleton_self, diagsFor_patchField_ne, diagsFor_patchField_some, diagsFor_patchField_none, diagsFor_overrideURL_ne, diagsFor_overrideParseRules_ne, diagsFor_overrideStorage_ne, diagsFor_overrideScrapingOptions_ne, diagsFor_overrideDataFormatting_ne, overrideParseRules], by simp [ConfigV.overrideConfig, diagsFor_append, diagsFor_nil, diagsFor_singleton_self, diagsFor_patchField_ne, diagsFor_patchField_some, diagsFor_patchField_none, diagsFor_overrideURL_ne, diagsFor_overrideParseRules_ne, diagsFor_overrideStorage_ne, diagsFor_overrideScrapingOptions_ne, diagsFor_overrideDataFormatting_ne, overrideParseRules], by simp [ConfigV.overrideConfig, diagsFor_append, diagsFor_nil, diagsFor_singleton_self, diagsFor_patchField_ne, diagsFor_patchField_some, diagsFor_patchField_none, diagsFor_overrideURL_ne, diagsFor_overrideParseRules_ne, diagsFor_overrideStorage_ne, diagsFor_overrideScrapingOptions_ne, diagsFor_overrideDataFormatting_ne, overrideParseRules], by simp [ConfigV.overrideConfig, diagsFor_append, diagsFor_nil, diagsFor_singleton_self, diagsFor_patchField_ne, diagsFor_patchField_some, diagsFor_patchField_none, diagsFor_overrideURL_ne, diagsFor_overrideParseRules_ne, diagsFor_overrideStorage_ne, diagsFor_overrideScrapingOptions_ne, diagsFor_overrideDataFormatting_ne, overrideParseRules]⟩
  · intro ou h; subst h
    obtain ⟨g0, g1, g2, g3, g4⟩ := ou
    refine ⟨?_, ?_, ?_, ?_, ?_, ?_, ?_, ?_, ?_, ?_⟩
    · intro h; subst h
      refine ⟨rfl, by simp [ConfigV.overrideConfig, diagsFor_append, diagsFor_nil, diagsFor_singleton_self, diagsFor_patchField_ne, diagsFor_patchField_some, diagsFor_patchField_none, diagsFor_overrideURL_ne, diagsFor_overrideParseRules_ne, diagsFor_overrideStorage_ne, diagsFor_overrideScrapingOptions_ne, diagsFor_overrideDataFormatting_ne, overrideParseRules]⟩
    · intro x h; subst h
      refine ⟨rfl, by simp [ConfigV.overrideConfig, diagsFor_append, diagsFor_nil, diagsFor_singleton_self, diagsFor_patchField_ne, diagsFor_patchField_some, diagsFor_patchField_none, diagsFor_overrideURL_ne, diagsFor_overrideParseRules_ne, diagsFor_overrideStorage_ne, diagsFor_overrideScrapingOptions_ne, diagsFor_overrideDataFormatting_ne, overrideParseRules]⟩
    · intro h; subst h
      refine ⟨rfl, by simp [ConfigV.overrideConfig, diagsFor_append, diagsFor_nil, diagsFor_singleton_self, diagsFor_patchField_ne, diagsFor_patchField_some, diagsFor_patchField_none, diagsFor_overrideURL_ne, diagsFor_overrideParseRules_ne, diagsFor_overrideStorage_ne, diagsFor_overrideScrapingOptions_ne, diagsFor_overrideDataFormatting_ne, overrideParseRules]⟩
    · intro x h; subst h
      refine ⟨rfl, by simp [ConfigV.overrideConfig, diagsFor_append, diagsFor_nil, diagsFor_singleton_self, diagsFor_patchField_ne, diagsFor_patchField_some, diagsFor_patchField_none, diagsFor_overrideURL_ne, diagsFor_overrideParseRules_ne, diagsFor_overrideStorage_ne, diagsFor_overrideScrapingOptions_ne, diagsFor_overrideDataFormatting_ne, overrideParseRules]⟩
    · intro h; subst h
      refine ⟨rfl, by simp [ConfigV.overrideConfig, diagsFor_append, diagsFor_nil, diagsFor_singleton_self, diagsFor_patchField_ne, diagsFor_patchField_some, diagsFor_patchField_none, diagsFor_overrideURL_ne, diagsFor_overrideParseRules_ne, diagsFor_overrideStorage_ne, diagsFor_overrideScrapingOptions_ne, diagsFor_overrideDataFormatting_ne, overrideParseRules]⟩
    · intro x h; subst h
      refine ⟨rfl, by simp [ConfigV.overrideConfig, diagsFor_append, diagsFor_nil, diagsFor_singleton_self, diagsFor_patchField_ne, diagsFor_patchField_some, diagsFor_patchField_none, diagsFor_overrideURL_ne, diagsFor_overrideParseRules_ne, diagsFor_overrideStorage_ne, diagsFor_overrideScrapingOptions_ne, diagsFor_overrideDataFormatting_ne, overrideParseRules]⟩
    · intro h; subst h
      refine ⟨rfl, by simp [ConfigV.overrideConfig, diagsFor_append, diagsFor_nil, diagsFor_singleton_self, diagsFor_patchField_ne, diagsFor_patchField_some, diagsFor_patchField_none, diagsFor_overrideURL_ne, diagsFor_overrideParseRules_ne, diagsFor_overrideStorage_ne, diagsFor_overrideScrapingOptions_ne, diagsFor_overrideDataFormatting_ne, overrideParseRules]⟩
    · intro x h; subst h
      refine ⟨rfl, by simp [ConfigV.overrideConfig, diagsFor_append, diagsFor_nil, diagsFor_singleton_self, diagsFor_patchField_ne, diagsFor_patchField_some, diagsFor_patchField_none, diagsFor_overrideURL_ne, diagsFor_overrideParseRules_ne, diagsFor_overrideStorage_ne, diagsFor_overrideScrapingOptions_ne, diagsFor_overrideDataFormatting_ne, overrideParseRules]⟩
    · intro h; subst h
      refine ⟨rfl, by simp [ConfigV.overrideConfig, diagsFor_append, diagsFor_nil, diagsFor_singleton_self, diagsFor_patchField_ne, diagsFor_patchField_some, diagsFor_patchField_none, diagsFor_overrideURL_ne, diagsFor_overrideParseRules_ne, diagsFor_overrideStorage_ne, diagsFor_overrideScrapingOptions_ne, diagsFor_overrideDataFormatting_ne, overrideParseRules]⟩
    · intro x h; subst h
      refine ⟨rfl, by simp [ConfigV.overrideConfig, diagsFor_append, diagsFor_nil, diagsFor_singleton_self, diagsFor_patchField_ne, diagsFor_patchField_some, diagsFor_patchField_none, diagsFor_overrideURL_ne, diagsFor_overrideParseRules_ne, diagsFor_overrideStorage_ne, diagsFor_overrideScrapingOptions_ne, diagsFor_overrideDataFormatting_ne, overrideParseRules]⟩
  · intro h; subst h
    refine ⟨rfl, by simp [ConfigV.overrideConfig, diagsFor_append, diagsFor_nil, diagsFor_singleton_self, diagsFor_patchField_ne, diagsFor_patchField_some, diagsFor_patchField_none, diagsFor_overrideURL_ne, diagsFor_overrideParseRules_ne, diagsFor_overrideStorage_ne, diagsFor_overrideScrapingOptions_ne, diagsFor_overrideDataFormatting_ne, overrideStorage], by simp [ConfigV.overrideConfig, diagsFor_append, diagsFor_nil, diagsFor_singleton_self, diagsFor_patchField_ne, diagsFor_patchField_some, diagsFor_patchField_none, diagsFor_overrideURL_ne, diagsFor_overrideParseRules_ne, diagsFor_overrideStorage_ne, diagsFor_overrideScrapingOptions_ne, diagsFor_overrideDataFormatting_ne, overrideStorage], by simp [ConfigV.overrideConfig, diagsFor_append, diagsFor_nil, diagsFor_singleton_self, diagsFor_patchField_ne, diagsFor_patchField_some, diagsFor_patchField_none, diagsFor_overrideURL_ne, diagsFor_overrideParseRules_ne, diagsFor_overrideStorage_ne, diagsFor_overrideScrapingOptions_ne, diagsFor_overrideDataFormatting_ne, overrideStorage]⟩
  · intro ou h; subst h
    obtain ⟨g0, g1, g2⟩ := ou
    refine ⟨?_, ?_, ?_, ?_, ?_, ?_⟩
    · intro h; subst h
      refine ⟨rfl, by simp [ConfigV.overrideConfig, diagsFor_append, diagsFor_nil, diagsFor_singleton_self, diagsFor_patchField_ne, diagsFor_patchField_some, diagsFor_patchField_none, diagsFor_overrideURL_ne, diagsFor_overrideParseRules_ne, diagsFor_overrideStorage_ne, diagsFor_overrideScrapingOptions_ne, diagsFor_overrideDataFormatting_ne, overrideStorage]⟩
    · intro x h; subst h
      refine ⟨rfl, by simp [ConfigV.overrideConfig, diagsFor_append, diagsFor_nil, diagsFor_singleton_self, diagsFor_patchField_ne, diagsFor_patchField_some, diagsFor_patchField_none, diagsFor_overrideURL_ne, diagsFor_overrideParseRules_ne, diagsFor_overrideStorage_ne, diagsFor_overrideScrapingOptions_ne, diagsFor_overrideDataFormatting_ne, overrideStorage]⟩
    · intro h; subst h
      refine ⟨rfl, by simp [ConfigV.overrideConfig, diagsFor_append, diagsFor_nil, diagsFor_singleton_self, diagsFor_patchField_ne, diagsFor_patchField_some, diagsFor_patchField_none, diagsFor_overrideURL_ne, diagsFor_overrideParseRules_ne, diagsFor_overrideStorage_ne, diagsFor_overrideScrapingOptions_ne, diagsFor_overrideDataFormatting_ne, overrideStorage]⟩
    · intro x h; subst h
      refine ⟨rfl, by simp [ConfigV.overrideConfig, diagsFor_append, diagsFor_nil, diagsFor_singleton_self, diagsFor_patchField_ne, diagsFor_patchField_some, diagsFor_patchField_none, diagsFor_overrideURL_ne, diagsFor_overrideParseRules_ne, diagsFor_overrideStorage_ne, diagsFor_overrideScrapingOptions_ne, diagsFor_overrideDataFormatting_ne, overrideStorage]⟩
    · intro h; subst h
      refine ⟨rfl, by simp [ConfigV.overrideConfig, diagsFor_append, diagsFor_nil, diagsFor_singleton_self, diagsFor_patchField_ne, diagsFor_patchField_some, diagsFor_patchField_none, diagsFor_overrideURL_ne, diagsFor_overrideParseRules_ne, diagsFor_overrideStorage_ne, diagsFor_overrideScrapingOptions_ne, diagsFor_overrideDataFormatting_ne, overrideStorage]⟩
    · intro x h; subst h
      refine ⟨rfl, by simp [ConfigV.overrideConfig, diagsFor_append, diagsFor_nil, diagsFor_singleton_self, diagsFor_patchField_ne, diagsFor_patchField_some, diagsFor_patchField_none, diagsFor_overrideURL_ne, diagsFor_overrideParseRules_ne, diagsFor_overrideStorage_ne, diagsFor_overrideScrapingOptions_ne, diagsFor_overrideDataFormatting_ne, overrideStorage]⟩
  · intro h; subst h
    refine ⟨rfl, by simp [ConfigV.overrideConfig, diagsFor_append, diagsFor_nil, diagsFor_singleton_self, diagsFor_patchField_ne, diagsFor_patchField_some, diagsFor_patchField_none, diagsFor_overrideURL_ne, diagsFor_overrideParseRules_ne, diagsFor_overrideStorage_ne, diagsFor_overrideScrapingOptions_ne, diagsFor_overrideDataFormatting_ne, overrideScrapingOptions], by simp [ConfigV.overrideConfig, diagsFor_append, diagsFor_nil, diagsFor_singleton_self, diagsFor_patchField_ne, diagsFor_patchField_some, diagsFor_patchField_none, diagsFor_overrideURL_ne, diagsFor_overrideParseRules_ne, diagsFor_overrideStorage_ne, diagsFor_overrideScrapingOptions_ne, diagsFor_overrideDataFormatting_ne, overrideScrapingOptions], by simp [ConfigV.overrideConfig, diagsFor_append, diagsFor_nil, diagsFor_singleton_self, diagsFor_patchField_ne, diagsFor_patchField_some, diagsFor_patchField_none, diagsFor_overrideURL_ne, diagsFor_overrideParseRules_ne, diagsFor_overrideStorage_ne, diagsFor_overrideScrapingOptions_ne, diagsFor_overrideDataFormatting_ne, overrideScrapingOptions], by simp [ConfigV.overrideConfig, diagsFor_append, diagsFor_nil, diagsFor_singleton_self, diagsFor_patchField_ne, diagsFor_patchField_some, diagsFor_patchField_none, diagsFor_overrideURL_ne, diagsFor_overrideParseRules_ne, diagsFor_overrideStorage_ne, diagsFor_overrideScrapingOptions_ne, diagsFor_overrideDataFormatting_ne, overrideScrapingOptions]⟩
  · intro ou h; subst h
    obtain ⟨g0, g1, g2, g3⟩ := ou
    refine ⟨?_, ?_, ?_, ?_, ?_, ?_, ?_, ?_⟩
    · intro h; subst h
      refine ⟨rfl, by simp [ConfigV.overrideConfig, diagsFor_append, diagsFor_nil, diagsFor_singleton_self, diagsFor_patchField_ne, diagsFor_patchField_some, diagsFor_patchField_none, diagsFor_overrideURL_ne, diagsFor_overrideParseRules_ne, diagsFor_overrideStorage_ne, diagsFor_overrideScrapingOptions_ne, diagsFor_overrideDataFormatting_ne, overrideScrapingOptions]⟩
    · intro x h; subst h
      refine ⟨rfl, by simp [ConfigV.overrideConfig, diagsFor_append, diagsFor_nil, diagsFor_singleton_self, diagsFor_patchField_ne, diagsFor_patchField_some, diagsFor_patchField_none, diagsFor_overrideURL_ne, diagsFor_overrideParseRules_ne, diagsFor_overrideStorage_ne, diagsFor_overrideScrapingOptions_ne, diagsFor_overrideDataFormatting_ne, overrideScrapingOptions]⟩
    · intro h; subst h
      refine ⟨rfl, by simp [ConfigV.overrideConfig, diagsFor_append, diagsFor_nil, diagsFor_singleton_self, diagsFor_patchField_ne, diagsFor_patchField_some, diagsFor_patchField_none, diagsFor_overrideURL_ne, diagsFor_overrideParseRules_ne, diagsFor_overrideStorage_ne, diagsFor_overrideScrapingOptions_ne, diagsFor_overrideDataFormatting_ne, overrideScrapingOptions]⟩
    · intro x h; subst h
      refine ⟨rfl, by simp [ConfigV.overrideConfig, diagsFor_append, diagsFor_nil, diagsFor_singleton_self, diagsFor_patchField_ne, diagsFor_patchField_some, diagsFor_patchField_none, diagsFor_overrideURL_ne, diagsFor_overrideParseRules_ne, diagsFor_overrideStorage_ne, diagsFor_overrideScrapingOptions_ne, diagsFor_overrideDataFormatting_ne, overrideScrapingOptions]⟩
    · intro h; subst h
      refine ⟨rfl, by simp [ConfigV.overrideConfig, diagsFor_append, diagsFor_nil, diagsFor_singleton_self, diagsFor_patchField_ne, diagsFor_patchField_some, diagsFor_patchField_none, diagsFor_overrideURL_ne, diagsFor_overrideParseRules_ne, diagsFor_overrideStorage_ne, diagsFor_overrideScrapingOptions_ne, diagsFor_overrideDataFormatting_ne, overrideScrapingOptions]⟩
    · intro x h; subst h
      refine ⟨rfl, by simp [ConfigV.overrideConfig, diagsFor_append, diagsFor_nil, diagsFor_singleton_self, diagsFor_patchField_ne, diagsFor_patchField_some, diagsFor_patchField_none, diagsFor_overrideURL_ne, diagsFor_overrideParseRules_ne, diagsFor_overrideStorage_ne, diagsFor_overrideScrapingOptions_ne, diagsFor_overrideDataFormatting_ne, overrideScrapingOptions]⟩
    · intro h; subst h
      refine ⟨rfl, by simp [ConfigV.overrideConfig, diagsFor_append, diagsFor_nil, diagsFor_singleton_self, diagsFor_patchField_ne, diagsFor_patchField_some, diagsFor_patchField_none, diagsFor_overrideURL_ne, diagsFor_overrideParseRules_ne, diagsFor_overrideStorage_ne, diagsFor_overrideScrapingOptions_ne, diagsFor_overrideDataFormatting_ne, overrideScrapingOptions]⟩
    · intro x h; subst h
      refine ⟨rfl, by simp [ConfigV.overrideConfig, diagsFor_append, diagsFor_nil, diagsFor_singleton_self, diagsFor_patchField_ne, diagsFor_patchField_some, diagsFor_patchField_none, diagsFor_overrideURL_ne, diagsFor_overrideParseRules_ne, diagsFor_overrideStorage_ne, diagsFor_overrideScrapingOptions_ne, diagsFor_overrideDataFormatting_ne, overrideScrapingOptions]⟩
  · intro h; subst h
    refine ⟨rfl, by simp [ConfigV.overrideConfig, diagsFor_append, diagsFor_nil, diagsFor_singleton_self, diagsFor_patchField_ne, diagsFor_patchField_some, diagsFor_patchField_none, diagsFor_overrideURL_ne, diagsFor_overrideParseRules_ne, diagsFor_overrideStorage_ne, diagsFor_overrideScrapingOptions_ne, diagsFor_overrideDataFormatting_ne, overrideDataFormatting], by simp [ConfigV.overrideConfig, diagsFor_append, diagsFor_nil, diagsFor_singleton_self, diagsFor_patchField_ne, diagsFor_patchField_some, diagsFor_patchField_none, diagsFor_overrideURL_ne, diagsFor_overrideParseRules_ne, diagsFor_overrideStorage_ne, diagsFor_overrideScrapingOptions_ne, diagsFor_overrideDataFormatting_ne, overrideDataFormatting]⟩
  · intro ou h; subst h
    obtain ⟨g0, g1⟩ := ou
    refine ⟨?_, ?_, ?_, ?_⟩
    · intro h; subst h
      refine ⟨rfl, by simp [ConfigV.overrideConfig, diagsFor_append, diagsFor_nil, diagsFor_singleton_self, diagsFor_patchField_ne, diagsFor_patchField_some, diagsFor_patchField_none, diagsFor_overrideURL_ne, diagsFor_overrideParseRules_ne, diagsFor_overrideStorage_ne, diagsFor_overrideScrapingOptions_ne, diagsFor_overrideDataFormatting_ne, overrideDataFormatting]⟩
    · intro x h; subst h
      refine ⟨rfl, by simp [ConfigV.overrideConfig, diagsFor_append, diagsFor_nil, diagsFor_singleton_self, diagsFor_patchField_ne, diagsFor_patchField_some, diagsFor_patchField_none, diagsFor_overrideURL_ne, diagsFor_overrideParseRules_ne, diagsFor_overrideStorage_ne, diagsFor_overrideScrapingOptions_ne, diagsFor_overrideDataFormatting_ne, overrideDataFormatting]⟩
    · intro h; subst h
      refine ⟨rfl, by simp [ConfigV.overrideConfig, diagsFor_append, diagsFor_nil, diagsFor_singleton_self, diagsFor_patchField_ne, diagsFor_patchField_some, diagsFor_patchField_none, diagsFor_overrideURL_ne, diagsFor_overrideParseRules_ne, diagsFor_overrideStorage_ne, diagsFor_overrideScrapingOptions_ne, diagsFor_overrideDataFormatting_ne, overrideDataFormatting]⟩
    · intro x h; subst h
      refine ⟨rfl, by simp [ConfigV.overrideConfig, diagsFor_append, diagsFor_nil, diagsFor_singleton_self, diagsFor_patchField_ne, diagsFor_patchField_some, diagsFor_patchField_none, diagsFor_overrideURL_ne, diagsFor_overrideParseRules_ne, diagsFor_overrideStorage_ne, diagsFor_overrideScrapingOptions_ne, diagsFor_overrideDataFormatting_ne, overrideDataFormatting]⟩

theorem diagsFor_cons_self (l v : String) (ds : List Diag) :
    diagsFor l (⟨l, v⟩ :: ds) = ⟨l, v⟩ :: diagsFor l ds := by simp [diagsFor]

theorem cliScalar_isZero {α : Type} (label : String) (render : α → String)
    (isZero : α → Bool) (old pv : α) (h : isZero pv = true) :
    cliScalar label render isZero old pv = (old, []) := by
  simp [cliScalar, h]

theorem cliScalar_not_isZero {α : Type} (label : String) (render : α → String)
    (isZero : α → Bool) (old pv : α) (h : isZero pv = false) :
    cliScalar label render isZero old pv = (pv, [⟨label, render pv⟩]) := by
  simp [cliScalar, h]

theorem cliSlice_len_zero (label : String) (old pv : GoSlice String) (h : pv.len = 0) :
    cliSlice label old pv = (old, []) := by
  simp [cliSlice, h]

theorem cliSlice_len_ne_zero (label : String) (old pv : GoSlice String) (h : pv.len ≠ 0) :
    cliSlice label old pv = (pv, [⟨label, goSprintStringSlice pv⟩]) := by
  simp [cliSlice, h, GoSlice.isZero_eq_false_of_len_ne_zero]

set_option maxHeartbeats 3200000 in
/-- C2: zero-patch override semantics of `OverrideWithCLI`: a sub-field whose
patch value is its type's zero value is skipped (no change, no line); an
empty-sequence sub-field is always skipped; every other sub-field is copied
into the configuration with exactly one diagnostic line of the form
`Overriding Section.Field: value`. -/
theorem overrideWithCLI_zero_patch_semantics (cfg o : Config) :
    (o.url.base = "" →
      (cfg.overrideWithCLI o).1.url.base = cfg.url.base ∧
      diagsFor "Overriding URL.Base: " (cfg.overrideWithCLI o).2 = []) ∧
    (o.url.base ≠ "" →
      (cfg.overrideWithCLI o).1.url.base = o.url.base ∧
      diagsFor "Overriding URL.Base: " (cfg.overrideWithCLI o).2 = [⟨"Overriding URL.Base: ", o.url.base⟩]) ∧
    (o.url.routes.len = 0 →
      (cfg.overrideWithCLI o).1.url.routes = cfg.url.routes ∧
      diagsFor "Overriding URL.Routes: " (cfg.overrideWithCLI o).2 = []) ∧
    (o.url.routes.len ≠ 0 →
      (cfg.overrideWithCLI o).1.url.routes = o.url.routes ∧
      diagsFor "Overriding URL.Routes: " (cfg.overrideWithCLI o).2 = [⟨"Overriding URL.Routes: ", goSprintStringSlice o.url.routes⟩]) ∧
    (o.url.includeBase = false →
      (cfg.overrideWithCLI o).1.url.includeBase = cfg.url.includeBase ∧
      diagsFor "Overriding URL.IncludeBase: " (cfg.overrideWithCLI o).2 = []) ∧
    (o.url.includeBase = true →
      (cfg.overrideWithCLI o).1.url.includeBase = o.url.includeBase ∧
      diagsFor "Overriding URL.IncludeBase: " (cfg.overrideWithCLI o).2 = [⟨"Overriding URL.IncludeBase: ", goSprintBool o.url.includeBase⟩]) ∧
    (o.parseRules.title = "" →
      (cfg.overrideWithCLI o).1.parseRules.title = cfg.parseRules.title ∧
      diagsFor "Overriding ParseRules.Title: " (cfg.overrideWithCLI o).2 = []) ∧
    (o.parseRules.title ≠ "" →
      (cfg.overrideWithCLI o).1.parseRules.title = o.parseRules.title ∧
      diagsFor "Overriding ParseRules.Title: " (cfg.overrideWithCLI o).2 = [⟨"Overriding ParseRules.Title: ", o.parseRules.title⟩]) ∧
    (o.parseRules.metaDescription = "" →
      (cfg.overrideWithCLI o).1.parseRules.metaDescription = cfg.parseRules.metaDescription ∧
      diagsFor "Overriding ParseRules.MetaDescription: " (cfg.overrideWithCLI o).2 = []) ∧
    (o.parseRules.metaDescription ≠ "" →
      (cfg.overrideWithCLI o).1.parseRules.metaDescription = o.parseRules.metaDescription ∧
      diagsFor "Overriding ParseRules.MetaDescription: " (cfg.overrideWithCLI o).2 = [⟨"Overriding ParseRules.MetaDescription: ", o.parseRules.metaDescription⟩]) ∧
    (o.parseRules.articleContent = "" →
      (cfg.overrideWithCLI o).1.parseRules.articleContent = cfg.parseRules.articleContent ∧
      diagsFor "Overriding ParseRules.ArticleContent: " (cfg.overrideWithCLI o).2 = []) ∧
    (o.parseRules.articleContent ≠ "" →
      (cfg.overrideWithCLI o).1.parseRules.articleContent = o.parseRules.articleContent ∧
      diagsFor "Overriding ParseRules.ArticleContent: " (cfg.overrideWithCLI o).2 = [⟨"Overriding ParseRules.ArticleContent: ", o.parseRules.articleContent⟩]) ∧
    (o.parseRules.author = "" →
      (cfg.overrideWithCLI o).1.parseRules.author = cfg.parseRules.author ∧
      diagsFor "Overriding ParseRules.Author: " (cfg.overrideWithCLI o).2 = []) ∧
    (o.parseRules.author ≠ "" →
      (cfg.overrideWithCLI o).1.parseRules.author = o.parseRules.author ∧
      diagsFor "Overriding ParseRules.Author: " (cfg.overrideWithCLI o).2 = [⟨"Overriding ParseRules.Author: ", o.parseRules.author⟩]) ∧
    (o.parseRules.datePublished = "" →
      (cfg.overrideWithCLI o).1.parseRules.datePublished = cfg.parseRules.datePublished ∧
      diagsFor "Overriding ParseRules.DatePublished: " (cfg.overrideWithCLI o).2 = []) ∧
    (o.parseRules.datePublished ≠ "" →
      (cfg.overrideWithCLI o).1.parseRules.datePublished = o.parseRules.datePublished ∧
      diagsFor "Overriding ParseRules.DatePublished: " (cfg.overrideWithCLI o).2 = [⟨"Overriding ParseRules.DatePublished: ", o.parseRules.datePublished⟩]) ∧
    (o.storage.outputFormats.len = 0 →
      (cfg.overrideWithCLI o).1.storage.outputFormats = cfg.storage.outputFormats ∧
      diagsFor "Overriding Storage.OutputFormats: " (cfg.overrideWithCLI o).2 = []) ∧
    (o.storage.outputFormats.len ≠ 0 →
      (cfg.overrideWithCLI o).1.storage.outputFormats = o.storage.outputFormats ∧
      diagsFor "Overriding Storage.OutputFormats: " (cfg.overrideWithCLI o).2 = [⟨"Overriding Storage.OutputFormats: ", goSprintStringSlice o.storage.outputFormats⟩]) ∧
    (o.storage.savePath = "" →
      (cfg.overrideWithCLI o).1.storage.savePath = cfg.storage.savePath ∧
      diagsFor "Overriding Storage.SavePath: " (cfg.overrideWithCLI o).2 = []) ∧
    (o.storage.savePath ≠ "" →
      (cfg.overrideWithCLI o).1.storage.savePath = o.storage.savePath ∧
      diagsFor "Overriding Storage.SavePath: " (cfg.overrideWithCLI o).2 = [⟨"Overriding Storage.SavePath: ", o.storage.savePath⟩]) ∧
    (o.storage.fileName = "" →
      (cfg.overrideWithCLI o).1.storage.fileName = cfg.storage.fileName ∧
      diagsFor "Overriding Storage.FileName: " (cfg.overrideWithCLI o).2 = []) ∧
    (o.storage.fileName ≠ "" →
      (cfg.overrideWithCLI o).1.storage.fileName = o.storage.fileName ∧
      diagsFor "Overriding Storage.FileName: " (cfg.overrideWithCLI o).2 = [⟨"Overriding Storage.FileName: ", o.storage.fileName⟩]) ∧
    (o.scrapingOptions.maxDepth = 0 →
      (cfg.overrideWithCLI o).1.scrapingOptions.maxDepth = cfg.scrapingOptions.maxDepth ∧
      diagsFor "Overriding ScrapingOptions.MaxDepth: " (cfg.overrideWithCLI o).2 = []) ∧
    (o.scrapingOptions.maxDepth ≠ 0 →
      (cfg.overrideWithCLI o).1.scrapingOptions.maxDepth = o.scrapingOptions.maxDepth ∧
      diagsFor "Overriding ScrapingOptions.MaxDepth: " (cfg.overrideWithCLI o).2 = [⟨"Overriding ScrapingOptions.MaxDepth: ", goSprintInt o.scrapingOptions.maxDepth⟩]) ∧
    (o.scrapingOptions.rateLimit = 0 →
      (cfg.overrideWithCLI o).1.scrapingOptions.rateLimit = cfg.scrapingOptions.rateLimit ∧
      diagsFor "Overriding ScrapingOptions.RateLimit: " (cfg.overrideWithCLI o).2 = []) ∧
    (o.scrapingOptions.rateLimit ≠ 0 →
      (cfg.overrideWithCLI o).1.scrapingOptions.rateLimit = o.scrapingOptions.rateLimit ∧
      diagsFor "Overriding ScrapingOptions.RateLimit: " (cfg.overrideWithCLI o).2 = [⟨"Overriding ScrapingOptions.RateLimit: ", goSprintFloat o.scrapingOptions.rateLimit⟩]) ∧
    (o.scrapingOptions.retryAttempts = 0 →
      (cfg.overrideWithCLI o).1.scrapingOptions.retryAttempts = cfg.scrapingOptions.retryAttempts ∧
      diagsFor "Overriding ScrapingOptions.RetryAttempts: " (cfg.overrideWithCLI o).2 = []) ∧
    (o.scrapingOptions.retryAttempts ≠ 0 →
      (cfg.overrideWithCLI o).1.scrapingOptions.retryAttempts = o.scrapingOptions.retryAttempts ∧
      diagsFor "Overriding ScrapingOptions.RetryAttempts: " (cfg.overrideWithCLI o).2 = [⟨"Overriding ScrapingOptions.RetryAttempts: ", goSprintInt o.scrapingOptions.retryAttempts⟩]) ∧
    (o.scrapingOptions.userAgent = "" →
      (cfg.overrideWithCLI o).1.scrapingOptions.userAgent = cfg.scrapingOptions.userAgent ∧
      diagsFor "Overriding ScrapingOptions.UserAgent: " (cfg.overrideWithCLI o).2 = []) ∧
    (o.scrapingOptions.userAgent ≠ "" →
      (cfg.overrideWithCLI o).1.scrapingOptions.userAgent = o.scrapingOptions.userAgent ∧
      diagsFor "Overriding ScrapingOptions.UserAgent: " (cfg.overrideWithCLI o).2 = [⟨"Overriding ScrapingOptions.UserAgent: ", o.scrapingOptions.userAgent⟩]) ∧
    (o.dataFormatting.cleanWhitespace = false →
      (cfg.overrideWithCLI o).1.dataFormatting.cleanWhitespace = cfg.dataFormatting.cleanWhitespace ∧
      diagsFor "Overriding DataFormatting.CleanWhitespace: " (cfg.overrideWithCLI o).2 = []) ∧
    (o.dataFormatting.cleanWhitespace = true →
      (cfg.overrideWithCLI o).1.dataFormatting.cleanWhitespace = o.dataFormatting.cleanWhitespace ∧
      diagsFor "Overriding DataFormatting.CleanWhitespace: " (cfg.overrideWithCLI o).2 = [⟨"Overriding DataFormatting.CleanWhitespace: ", goSprintBool o.dataFormatting.cleanWhitespace⟩]) ∧
    (o.dataFormatting.removeHTML = false →
      (cfg.overrideWithCLI o).1.dataFormatting.removeHTML = cfg.dataFormatting.removeHTML ∧
      diagsFor "Overriding DataFormatting.RemoveHTML: " (cfg.overrideWithCLI o).2 = []) ∧
    (o.dataFormatting.removeHTML = true →
      (cfg.overrideWithCLI o).1.dataFormatting.removeHTML = o.dataFormatting.removeHTML ∧
      diagsFor "Overriding DataFormatting.RemoveHTML: " (cfg.overrideWithCLI o).2 = [⟨"Overriding DataFormatting.RemoveHTML: ", goSprintBool o.dataFormatting.removeHTML⟩]) := by
  refine ⟨?_, ?_, ?_, ?_, ?_, ?_, ?_, ?_, ?_, ?_, ?_, ?_, ?_, ?_, ?_, ?_, ?_, ?_, ?_, ?_, ?_, ?_, ?_, ?_, ?_, ?_, ?_, ?_, ?_, ?_, ?_, ?_, ?_, ?_⟩ <;>
    · intro h
      refine ⟨by simp [Config.overrideWithCLI, cliScalar_isZero, cliScalar_not_isZero,
        cliSlice_len_zero, cliSlice_len_ne_zero, diagsFor_append, diagsFor_nil,
        diagsFor_singleton_self, diagsFor_cons_self, diagsFor_cliScalar_ne, diagsFor_cliSlice_ne, strIsZero,
        intIsZero, ratIsZero, boolIsZero, beq_eq_false_iff_ne, h], by simp [Config.overrideWithCLI, cliScalar_isZero, cliScalar_not_isZero,
        cliSlice_len_zero, cliSlice_len_ne_zero, diagsFor_append, diagsFor_nil,
        diagsFor_singleton_self, diagsFor_cons_self, diagsFor_cliScalar_ne, diagsFor_cliSlice_ne, strIsZero,
        intIsZero, ratIsZero, boolIsZero, beq_eq_false_iff_ne, h]⟩

/-- A Go value as seen by the `reflect` package: the value universe
`PrintNonEmptyFields` (pkg/utils/utils.go) walks.  Slices in this program are
string slices. -/
inductive GoValue where
  | str (s : String)
  | int (n : Int)
  | float (q : Rat)
  | bool (b : Bool)
  | slice (elems : GoSlice String)
  | struct (fields : List (String × GoValue))
  | ptr (v : GoValue)

/-- The field loop of `PrintNonEmptyFields`: in declaration order, recurse
into a struct field with the prefix extended by the field name and `"."`;
print one line for a non-empty string field (`fmt.Println` of the colored
`prefix+name+":"` and the value renders as `prefix+name+": "+value`, kept
as a `Diag` with label `prefix+name+": "`); skip every other kind. -/
def printFields (pre : String) : List (String × GoValue) → List Diag
  | [] => []
  | (name, fv) :: rest =>
    (match fv with
     | .struct fs => printFields (pre ++ name ++ ".") fs
     | .str s => if s = "" then [] else [⟨pre ++ name ++ ": ", s⟩]
     | _ => []) ++ printFields pre rest

/-- `PrintNonEmptyFields(prefix, v)`: a pointer is dereferenced once at
entry; then the fields of the struct are walked.  The Go code assumes the
(dereferenced) argument is a struct; on any other kind it would panic in
`NumField`, which no caller reaches — modelled as producing no output. -/
def printNonEmptyFields (pre : String) (v : GoValue) : List Diag :=
  match v with
  | .ptr inner =>
    match inner with
    | .struct fs => printFields pre fs
    | _ => []
  | .struct fs => printFields pre fs
  | _ => []

/-- Modelled from the spec's wording of §4.4, for comparison with the code's
`printFields`: collect every string leaf with its dotted path, in declaration
order, then keep the non-empty ones and render each as one line. -/
def stringLeaves (pre : String) : List (String × GoValue) → List (String × String)
  | [] => []
  | (name, fv) :: rest =>
    (match fv with
     | .struct fs => stringLeaves (pre ++ name ++ ".") fs
     | .str s => [(pre ++ name, s)]
     | _ => []) ++ stringLeaves pre rest

/-- Spec-side field printer on a field list: filter then render. -/
def printNonEmptySpecFields (pre : String) (fs : List (String × GoValue)) : List Diag :=
  ((stringLeaves pre fs).filter (fun p => p.2 != "")).map (fun p => ⟨p.1 ++ ": ", p.2⟩)

/-- Spec-side counterpart of `printNonEmptyFields`. -/
def printNonEmptySpec (pre : String) (v : GoValue) : List Diag :=
  match v with
  | .ptr inner =>
    match inner with
    | .struct fs => printNonEmptySpecFields pre fs
    | _ => []
  | .struct fs => printNonEmptySpecFields pre fs
  | _ => []

theorem printFields_eq_spec (pre : String) (l : List (String × GoValue)) :
    printFields pre l = printNonEmptySpecFields pre l := by
  induction pre, l using printFields.induct with
  | case1 pre => simp [printFields, printNonEmptySpecFields, stringLeaves]
  | case2 pre name fv rest ih2 ih1 =>
    cases fv with
    | struct fs =>
      simp_all [printFields, printNonEmptySpecFields, stringLeaves, List.filter_append,
        List.map_append]
    | str s =>
      by_cases hs : s = "" <;>
        simp_all [printFields, printNonEmptySpecFields, stringLeaves, List.filter_cons,
          String.append_assoc]
    | int n => simp_all [printFields, printNonEmptySpecFields, stringLeaves]
    | float q => simp_all [printFields, printNonEmptySpecFields, stringLeaves]
    | bool b => simp_all [printFields, printNonEmptySpecFields, stringLeaves]
    | slice s => simp_all [printFields, printNonEmptySpecFields, stringLeaves]
    | ptr v => simp_all [printFields, printNonEmptySpecFields, stringLeaves]

/-- C9: the field printer walks fields in declaration order, recursing into
nested records with the prefix extended by the field name and a dot, prints
one line per non-empty string leaf and nothing for any other leaf kind
(equivalence with the collect-filter-render reading of §4.4); in particular
on a record with one non-empty string field and one non-zero int field it
emits exactly the one line for the string field. -/
theorem printNonEmptyFields_string_only :
    (∀ pre v, printNonEmptyFields pre v = printNonEmptySpec pre v) ∧
    printNonEmptyFields ""
      (GoValue.struct [("Name", GoValue.str "x"), ("Count", GoValue.int 3)])
      = [⟨"Name: ", "x"⟩] := by
  constructor
  · intro pre v
    cases v with
    | ptr inner =>
      cases inner <;> simp [printNonEmptyFields, printNonEmptySpec, printFields_eq_spec]
    | struct fs => simp [printNonEmptyFields, printNonEmptySpec, printFields_eq_spec]
    | str s => rfl
    | int n => rfl
    | float q => rfl
    | bool b => rfl
    | slice s => rfl
  · simp [printNonEmptyFields, printFields]

/-- A parsed JSON value (the output of the text-level JSON parser, which is
external to this repository and kept abstract in `load`). -/
inductive Json where
  | null
  | bool (b : Bool)
  | num (q : Rat)
  | str (s : String)
  | arr (elems : List Json)
  | obj (members : List (String × Json))

/-- The earlier of two recorded decode errors (`encoding/json` reports the
earliest `UnmarshalTypeError` and keeps decoding). -/
def firstErr : Option String → Option String → Option String
  | some e, _ => some e
  | none, b => b

/-- Unmarshal of a JSON value into a Go string field: `null` leaves the field
unchanged; a non-string value is a type error that leaves the field
unchanged.  Models the documented behavior of Go's `encoding/json`, which is
outside this repository. -/
def decodeString (old : String) : Json → String × Option String
  | .str s => (s, none)
  | .null => (old, none)
  | _ => (old, some "cannot unmarshal JSON value into Go value of type string")

/-- Unmarshal of a JSON value into a Go bool field (same conventions as
`decodeString`). -/
def decodeBool (old : Bool) : Json → Bool × Option String
  | .bool b => (b, none)
  | .null => (old, none)
  | _ => (old, some "cannot unmarshal JSON value into Go value of type bool")

/-- Unmarshal of a JSON value into a Go int field: a non-integral number is a
type error. -/
def decodeInt (old : Int) : Json → Int × Option String
  | .num q =>
    if q.den = 1 then (q.num, none)
    else (old, some "cannot unmarshal number into Go value of type int")
  | .null => (old, none)
  | _ => (old, some "cannot unmarshal JSON value into Go value of type int")

/-- Unmarshal of a JSON value into a Go float64 field (on the `Rat` model). -/
def decodeFloat (old : Rat) : Json → Rat × Option String
  | .num q => (q, none)
  | .null => (old, none)
  | _ => (old, some "cannot unmarshal JSON value into Go value of type float64")

/-- Unmarshal of the elements of a JSON array into Go strings: a bad element
leaves its zero value and records the first error. -/
def decodeStringElems : List Json → List String × Option String
  | [] => ([], none)
  | x :: rest =>
    let e := decodeString "" x
    let r := decodeStringElems rest
    (e.1 :: r.1, firstErr e.2 r.2)

/-- Unmarshal of a JSON value into a `[]string` field: an array yields a
non-nil slice (even when empty), `null` sets the slice to nil, anything else
is a type error. -/
def decodeStringSlice (old : GoSlice String) : Json → GoSlice String × Option String
  | .arr xs =>
    let r := decodeStringElems xs
    (.mk r.1, r.2)
  | .null => (.nil, none)
  | _ => (old, some "cannot unmarshal JSON value into Go value of type []string")

/-- ASCII lowercasing (computable model of the case-insensitive key match of
`encoding/json`; every schema tag is ASCII). -/
def asciiLower (s : String) : String :=
  String.mk (s.data.map fun c => if c.isUpper then Char.ofNat (c.toNat + 32) else c)

/-- Key matching of `encoding/json`: an exact tag match or a case-insensitive
one, modelled by comparing the lowercased key with the lowercased tag. -/
def decodeURLFields (u : URLConfig) (e : Option String) :
    List (String × Json) → URLConfig × Option String
  | [] => (u, e)
  | (k, v) :: rest =>
    if asciiLower k = "base" then
      let r := decodeString u.base v
      decodeURLFields { u with base := r.1 } (firstErr e r.2) rest
    else if asciiLower k = "routes" then
      let r := decodeStringSlice u.routes v
      decodeURLFields { u with routes := r.1 } (firstErr e r.2) rest
    else if asciiLower k = "includebase" then
      let r := decodeBool u.includeBase v
      decodeURLFields { u with includeBase := r.1 } (firstErr e r.2) rest
    else decodeURLFields u e rest

/-- Unmarshal of the `url` member into the URL section. -/
def decodeURLSection (u : URLConfig) : Json → URLConfig × Option String
  | .obj ms => decodeURLFields u none ms
  | .null => (u, none)
  | _ => (u, some "cannot unmarshal JSON value into Go struct field url")

/-- Member loop of the `parseRules` object. -/
def decodeParseRulesFields (p : ParseRulesConfig) (e : Option String) :
    List (String × Json) → ParseRulesConfig × Option String
  | [] => (p, e)
  | (k, v) :: rest =>
    if asciiLower k = "title" then
      let r := decodeString p.title v
      decodeParseRulesFields { p with title := r.1 } (firstErr e r.2) rest
    else if asciiLower k = "metadescription" then
      let r := decodeString p.metaDescription v
      decodeParseRulesFields { p with metaDescription := r.1 } (firstErr e r.2) rest
    else if asciiLower k = "articlecontent" then
      let r := decodeString p.articleContent v
      decodeParseRulesFields { p with articleContent := r.1 } (firstErr e r.2) rest
    else if asciiLower k = "author" then
      let r := decodeString p.author v
      decodeParseRulesFields { p with author := r.1 } (firstErr e r.2) rest
    else if asciiLower k = "datepublished" then
      let r := decodeString p.datePublished v
      decodeParseRulesFields { p with datePublished := r.1 } (firstErr e r.2) rest
    else decodeParseRulesFields p e rest

/-- Unmarshal of the `parseRules` member. -/
def decodeParseRulesSection (p : ParseRulesConfig) : Json → ParseRulesConfig × Option String
  | .obj ms => decodeParseRulesFields p none ms
  | .null => (p, none)
  | _ => (p, some "cannot unmarshal JSON value into Go struct field parseRules")

/-- Member loop of the `storage` object. -/
def decodeStorageFields (s : StorageConfig) (e : Option String) :
    List (String × Json) → StorageConfig × Option String
  | [] => (s, e)
  | (k, v) :: rest =>
    if asciiLower k = "outputformats" then
      let r := decodeStringSlice s.outputFormats v
      decodeStorageFields { s with outputFormats := r.1 } (firstErr e r.2) rest
    else if asciiLower k = "savepath" then
      let r := decodeString s.savePath v
      decodeStorageFields { s with savePath := r.1 } (firstErr e r.2) rest
    else if asciiLower k = "filename" then
      let r := decodeString s.fileName v
      decodeStorageFields { s with fileName := r.1 } (firstErr e r.2) rest
    else decodeStorageFields s e rest

/-- Unmarshal of the `storage` member. -/
def decodeStorageSection (s : StorageConfig) : Json → StorageConfig × Option String
  | .obj ms => decodeStorageFields s none ms
  | .null => (s, none)
  | _ => (s, some "cannot unmarshal JSON value into Go struct field storage")

/-- Member loop of the `scrapingOptions` object. -/
def decodeScrapingOptionsFields (s : ScrapingOptionsConfig) (e : Option String) :
    List (String × Json) → ScrapingOptionsConfig × Option String
  | [] => (s, e)
  | (k, v) :: rest =>
    if asciiLower k = "maxdepth" then
      let r := decodeInt s.maxDepth v
      decodeScrapingOptionsFields { s with maxDepth := r.1 } (firstErr e r.2) rest
    else if asciiLower k = "ratelimit" then
      let r := decodeFloat s.rateLimit v
      decodeScrapingOptionsFields { s with rateLimit := r.1 } (firstErr e r.2) rest
    else if asciiLower k = "retryattempts" then
      let r := decodeInt s.retryAttempts v
      decodeScrapingOptionsFields { s with retryAttempts := r.1 } (firstErr e r.2) rest
    else if asciiLower k = "useragent" then
      let r := decodeString s.userAgent v
      decodeScrapingOptionsFields { s with userAgent := r.1 } (firstErr e r.2) rest
    else decodeScrapingOptionsFields s e rest

/-- Unmarshal of the `scrapingOptions` member. -/
def decodeScrapingOptionsSection (s : ScrapingOptionsConfig) :
    Json → ScrapingOptionsConfig × Option String
  | .obj ms => decodeScrapingOptionsFields s none ms
  | .null => (s, none)
  | _ => (s, some "cannot unmarshal JSON value into Go struct field scrapingOptions")

/-- Member loop of the `dataFormatting` object. -/
def decodeDataFormattingFields (d : DataFormattingConfig) (e : Option String) :
    List (String × Json) → DataFormattingConfig × Option String
  | [] => (d, e)
  | (k, v) :: rest =>
    if asciiLower k = "cleanwhitespace" then
      let r := decodeBool d.cleanWhitespace v
      decodeDataFormattingFields { d with cleanWhitespace := r.1 } (firstErr e r.2) rest
    else if asciiLower k = "removehtml" then
      let r := decodeBool d.removeHTML v
      decodeDataFormattingFields { d with removeHTML := r.1 } (firstErr e r.2) rest
    else decodeDataFormattingFields d e rest

/-- Unmarshal of the `dataFormatting` member. -/
def decodeDataFormattingSection (d : DataFormattingConfig) :
    Json → DataFormattingConfig × Option String
  | .obj ms => decodeDataFormattingFields d none ms
  | .null => (d, none)
  | _ => (d, some "cannot unmarshal JSON value into Go struct field dataFormatting")

/-- Member loop of the top-level configuration object: a key matching no
field of the `Config` schema (exactly or case-insensitively) is skipped. -/
def decodeConfigFields (cfg : Config) (e : Option String) :
    List (String × Json) → Config × Option String
  | [] => (cfg, e)
  | (k, v) :: rest =>
    if asciiLower k = "url" then
      let r := decodeURLSection cfg.url v
      decodeConfigFields { cfg with url := r.1 } (firstErr e r.2) rest
    else if asciiLower k = "parserules" then
      let r := decodeParseRulesSection cfg.parseRules v
      decodeConfigFields { cfg with parseRules := r.1 } (firstErr e r.2) rest
    else if asciiLower k = "storage" then
      let r := decodeStorageSection cfg.storage v
      decodeConfigFields { cfg with storage := r.1 } (firstErr e r.2) rest
    else if asciiLower k = "scrapingoptions" then
      let r := decodeScrapingOptionsSection cfg.scrapingOptions v
      decodeConfigFields { cfg with scrapingOptions := r.1 } (firstErr e r.2) rest
    else if asciiLower k = "dataformatting" then
      let r := decodeDataFormattingSection cfg.dataFormatting v
      decodeConfigFields { cfg with dataFormatting := r.1 } (firstErr e r.2) rest
    else decodeConfigFields cfg e rest

/-- `json.Unmarshal(content, &cfg)` on an already-parsed JSON value: decode
into a fresh zero `Config`, returning the populated record or the earliest
recorded error.  Models the documented behavior of Go's `encoding/json`,
which is outside this repository. -/
def decodeConfig : Json → Except String Config
  | .obj ms =>
    let r := decodeConfigFields Config.zero none ms
    match r.2 with
    | none => .ok r.1
    | some msg => .error msg
  | .null => .ok Config.zero
  | _ => .error "cannot unmarshal JSON value into Go value of type Config"

/-- What the file system yields for a path: no file (`os.Stat` reports
not-exist), a file that exists but cannot be read (`os.ReadFile` fails), or
readable contents. -/
inductive FileResult where
  | notFound
  | unreadable
  | content (text : String)
deriving DecidableEq, Repr

/-- The diagnostic line `Load` prints once the existence check passes:
`utils.PrintColored("Loaded config from: ", filePath, color.FgHiGreen)`. -/
def loadedDiag (path : String) : Diag := ⟨"Loaded config from: ", path⟩

/-- The `reflect` view of a `Config` record, as `PrintNonEmptyFields`
receives it in `Load`'s verbose branch: Go field names, declaration order. -/
def Config.toGoValue (cfg : Config) : GoValue :=
  .struct
    [("URL", .struct [("Base", .str cfg.url.base), ("Routes", .slice cfg.url.routes),
       ("IncludeBase", .bool cfg.url.includeBase)]),
     ("ParseRules", .struct [("Title", .str cfg.parseRules.title),
       ("MetaDescription", .str cfg.parseRules.metaDescription),
       ("ArticleContent", .str cfg.parseRules.articleContent),
       ("Author", .str cfg.parseRules.author),
       ("DatePublished", .str cfg.parseRules.datePublished)]),
     ("Storage", .struct [("OutputFormats", .slice cfg.storage.outputFormats),
       ("SavePath", .str cfg.storage.savePath), ("FileName", .str cfg.storage.fileName)]),
     ("ScrapingOptions", .struct [("MaxDepth", .int cfg.scrapingOptions.maxDepth),
       ("RateLimit", .float cfg.scrapingOptions.rateLimit),
       ("RetryAttempts", .int cfg.scrapingOptions.retryAttempts),
       ("UserAgent", .str cfg.scrapingOptions.userAgent)]),
     ("DataFormatting", .struct [("CleanWhitespace", .bool cfg.dataFormatting.cleanWhitespace),
       ("RemoveHTML", .bool cfg.dataFormatting.removeHTML)])]

/-- `Load(filePath)` of pkg/config/config.go over an abstract file system
`fs` and an abstract text-level JSON parser `parse` (both external I/O):
the existence check runs first; the `Loaded config from:` line is printed
right after it, before the read and the unmarshal; a read failure or an
unmarshal failure returns an error; on success defaults are applied and, when
the package-level Verbose flag is set, the non-empty fields are printed.
Returns the result and the emitted lines in order. -/
def load (fs : String → FileResult) (parse : String → Option Json) (verbose : Bool)
    (path : String) : Except String Config × List Diag :=
  match fs path with
  | .notFound => (.error ("config file " ++ path ++ " does not exist"), [])
  | .unreadable => (.error "failed to read config file", [loadedDiag path])
  | .content text =>
    match parse text with
    | none => (.error "invalid JSON in config file", [loadedDiag path])
    | some j =>
      match decodeConfig j with
      | .error e => (.error ("invalid JSON in config file: " ++ e), [loadedDiag path])
      | .ok cfg =>
        let cfg := cfg.applyDefaults
        (.ok cfg, loadedDiag path :: (if verbose then printNonEmptyFields "" cfg.toGoValue else []))

/-- C7: `Load` fails exactly when the file is missing, the file is
unreadable, or its contents are not well-formed JSON matching the
configuration schema (text-level parse failure or unmarshal failure), and
succeeds — returning a Configuration — in every other case. -/
theorem load_error_conditions (fs : String → FileResult) (parse : String → Option Json)
    (verbose : Bool) (path : String) :
    ((∃ cfg, (load fs parse verbose path).1 = .ok cfg) ↔
      (∃ s j cfg, fs path = .content s ∧ parse s = some j ∧ decodeConfig j = .ok cfg)) ∧
    ((∃ e, (load fs parse verbose path).1 = .error e) ↔
      (fs path = .notFound ∨ fs path = .unreadable ∨
        (∃ s, fs path = .content s ∧
          (parse s = none ∨ ∃ j e, parse s = some j ∧ decodeConfig j = .error e)))) := by
  cases hf : fs path with
  | notFound => simp [load, hf]
  | unreadable => simp [load, hf]
  | content s =>
    cases hp : parse s with
    | none => simp [load, hf, hp]
    | some j =>
      cases hd : decodeConfig j with
      | error e => simp [load, hf, hp, hd]
      | ok cfg => simp [load, hf, hp, hd]

/-- A file system with one unreadable-as-JSON file, for the C8
counterexample. -/
def badFs : String → FileResult := fun _ => .content "not json"

/-- A parser that rejects every text, for the C8 counterexample. -/
def badParse : String → Option Json := fun _ => none

/-- Counterexample to C8 as stated: on a malformed-JSON file `Load` returns
an error, yet the `Loaded config from:` diagnostic was emitted (it is printed
right after the existence check, before the read and the parse). -/
theorem load_diag_emitted_on_parse_failure :
    (load badFs badParse false "bad.json").1 = .error "invalid JSON in config file" ∧
    loadedDiag "bad.json" ∈ (load badFs badParse false "bad.json").2 := by
  constructor
  · rfl
  · simp [load, badFs, badParse]

/-- C8 amended: the `Loaded config from: {path}` diagnostic is emitted if and
only if the existence check passes (a file is present at the path) — so also
on the unreadable-file and malformed-JSON failure paths, and never in the
missing-file case. -/
theorem load_diag_iff_file_exists (fs : String → FileResult) (parse : String → Option Json)
    (verbose : Bool) (path : String) :
    loadedDiag path ∈ (load fs parse verbose path).2 ↔ fs path ≠ FileResult.notFound := by
  cases hf : fs path with
  | notFound => simp [load, hf]
  | unreadable => simp [load, hf]
  | content s =>
    cases hp : parse s with
    | none => simp [load, hf, hp]
    | some j =>
      cases hd : decodeConfig j with
      | error e => simp [load, hf, hp, hd]
      | ok cfg => simp [load, hf, hp, hd]

/-- Lowercased JSON tags of the URL section. -/
def urlTagKeys : List String := ["base", "routes", "includebase"]

/-- Lowercased JSON tags of the ParseRules section. -/
def parseRulesTagKeys : List String :=
  ["title", "metadescription", "articlecontent", "author", "datepublished"]

/-- Lowercased JSON tags of the Storage section. -/
def storageTagKeys : List String := ["outputformats", "savepath", "filename"]

/-- Lowercased JSON tags of the ScrapingOptions section. -/
def scrapingOptionsTagKeys : List String :=
  ["maxdepth", "ratelimit", "retryattempts", "useragent"]

/-- Lowercased JSON tags of the DataFormatting section. -/
def dataFormattingTagKeys : List String := ["cleanwhitespace", "removehtml"]

/-- Lowercased JSON tags of the top-level `Config` object. -/
def topTagKeys : List String :=
  ["url", "parserules", "storage", "scrapingoptions", "dataformatting"]

/-- Delete the members of a section object whose keys match none of the
section's fields; any non-object value is kept as is. -/
def scrubSection (keys : List String) : Json → Json
  | .obj ms => .obj (ms.filter (fun kv => keys.contains (asciiLower kv.1)))
  | v => v

/-- Delete every member of a top-level configuration object whose key is
not part of the configuration schema, and, inside each kept section object,
every member whose key is not a field of that section. -/
def filterKnownDeep (ms : List (String × Json)) : List (String × Json) :=
  (ms.filter (fun kv => topTagKeys.contains (asciiLower kv.1))).map (fun kv =>
    if asciiLower kv.1 = "url" then (kv.1, scrubSection urlTagKeys kv.2)
    else if asciiLower kv.1 = "parserules" then (kv.1, scrubSection parseRulesTagKeys kv.2)
    else if asciiLower kv.1 = "storage" then (kv.1, scrubSection storageTagKeys kv.2)
    else if asciiLower kv.1 = "scrapingoptions" then
      (kv.1, scrubSection scrapingOptionsTagKeys kv.2)
    else (kv.1, scrubSection dataFormattingTagKeys kv.2))

theorem decodeURLFields_filter (u : URLConfig) (e : Option String)
    (ms : List (String × Json)) :
    decodeURLFields u e (ms.filter (fun kv => urlTagKeys.contains (asciiLower kv.1))) =
      decodeURLFields u e ms := by
  induction ms generalizing u e with
  | nil => rfl
  | cons kv rest ih =>
    obtain ⟨k, v⟩ := kv
    by_cases h1 : asciiLower k = "base" <;> by_cases h2 : asciiLower k = "routes" <;>
      by_cases h3 : asciiLower k = "includebase" <;>
      simp_all [List.filter_cons, decodeURLFields, urlTagKeys]

theorem decodeParseRulesFields_filter (p : ParseRulesConfig) (e : Option String)
    (ms : List (String × Json)) :
    decodeParseRulesFields p e (ms.filter (fun kv => parseRulesTagKeys.contains (asciiLower kv.1))) =
      decodeParseRulesFields p e ms := by
  induction ms generalizing p e with
  | nil => rfl
  | cons kv rest ih =>
    obtain ⟨k, v⟩ := kv
    by_cases h1 : asciiLower k = "title" <;> by_cases h2 : asciiLower k = "metadescription" <;>
      by_cases h3 : asciiLower k = "articlecontent" <;> by_cases h4 : asciiLower k = "author" <;>
      by_cases h5 : asciiLower k = "datepublished" <;>
      simp_all [List.filter_cons, decodeParseRulesFields, parseRulesTagKeys]

theorem decodeStorageFields_filter (s : StorageConfig) (e : Option String)
    (ms : List (String × Json)) :
    decodeStorageFields s e (ms.filter (fun kv => storageTagKeys.contains (asciiLower kv.1))) =
      decodeStorageFields s e ms := by
  induction ms generalizing s e with
  | nil => rfl
  | cons kv rest ih =>
    obtain ⟨k, v⟩ := kv
    by_cases h1 : asciiLower k = "outputformats" <;> by_cases h2 : asciiLower k = "savepath" <;>
      by_cases h3 : asciiLower k = "filename" <;>
      simp_all [List.filter_cons, decodeStorageFields, storageTagKeys]

theorem decodeScrapingOptionsFields_filter (s : ScrapingOptionsConfig) (e : Option String)
    (ms : List (String × Json)) :
    decodeScrapingOptionsFields s e
        (ms.filter (fun kv => scrapingOptionsTagKeys.contains (asciiLower kv.1))) =
      decodeScrapingOptionsFields s e ms := by
  induction ms generalizing s e with
  | nil => rfl
  | cons kv rest ih =>
    obtain ⟨k, v⟩ := kv
    by_cases h1 : asciiLower k = "maxdepth" <;> by_cases h2 : asciiLower k = "ratelimit" <;>
      by_cases h3 : asciiLower k = "retryattempts" <;> by_cases h4 : asciiLower k = "useragent" <;>
      simp_all [List.filter_cons, decodeScrapingOptionsFields, scrapingOptionsTagKeys]

theorem decodeDataFormattingFields_filter (d : DataFormattingConfig) (e : Option String)
    (ms : List (String × Json)) :
    decodeDataFormattingFields d e
        (ms.filter (fun kv => dataFormattingTagKeys.contains (asciiLower kv.1))) =
      decodeDataFormattingFields d e ms := by
  induction ms generalizing d e with
  | nil => rfl
  | cons kv rest ih =>
    obtain ⟨k, v⟩ := kv
    by_cases h1 : asciiLower k = "cleanwhitespace" <;> by_cases h2 : asciiLower k = "removehtml" <;>
      simp_all [List.filter_cons, decodeDataFormattingFields, dataFormattingTagKeys]

theorem decodeURLSection_scrub (u : URLConfig) (v : Json) :
    decodeURLSection u (scrubSection urlTagKeys v) = decodeURLSection u v := by
  cases v
  case obj ms => exact decodeURLFields_filter u none ms
  all_goals rfl

theorem decodeParseRulesSection_scrub (p : ParseRulesConfig) (v : Json) :
    decodeParseRulesSection p (scrubSection parseRulesTagKeys v) =
      decodeParseRulesSection p v := by
  cases v
  case obj ms => exact decodeParseRulesFields_filter p none ms
  all_goals rfl

theorem decodeStorageSection_scrub (s : StorageConfig) (v : Json) :
    decodeStorageSection s (scrubSection storageTagKeys v) = decodeStorageSection s v := by
  cases v
  case obj ms => exact decodeStorageFields_filter s none ms
  all_goals rfl

theorem decodeScrapingOptionsSection_scrub (s : ScrapingOptionsConfig) (v : Json) :
    decodeScrapingOptionsSection s (scrubSection scrapingOptionsTagKeys v) =
      decodeScrapingOptionsSection s v := by
  cases v
  case obj ms => exact decodeScrapingOptionsFields_filter s none ms
  all_goals rfl

theorem decodeDataFormattingSection_scrub (d : DataFormattingConfig) (v : Json) :
    decodeDataFormattingSection d (scrubSection dataFormattingTagKeys v) =
      decodeDataFormattingSection d v := by
  cases v
  case obj ms => exact decodeDataFormattingFields_filter d none ms
  all_goals rfl

theorem decodeConfigFields_filterKnownDeep (cfg : Config) (e : Option String)
    (ms : List (String × Json)) :
    decodeConfigFields cfg e (filterKnownDeep ms) = decodeConfigFields cfg e ms := by
  induction ms generalizing cfg e with
  | nil => rfl
  | cons kv rest ih =>
    obtain ⟨k, v⟩ := kv
    by_cases h1 : asciiLower k = "url" <;> by_cases h2 : asciiLower k = "parserules" <;>
      by_cases h3 : asciiLower k = "storage" <;> by_cases h4 : asciiLower k = "scrapingoptions" <;>
      by_cases h5 : asciiLower k = "dataformatting" <;>
      simp_all [filterKnownDeep, List.filter_cons, decodeConfigFields, topTagKeys,
        decodeURLSection_scrub, decodeParseRulesSection_scrub, decodeStorageSection_scrub,
        decodeScrapingOptionsSection_scrub, decodeDataFormattingSection_scrub]

/-- C10: unmarshalling ignores object keys that are not part of the
configuration schema: deleting every unknown key (top-level or inside a
section) does not change the result of `decodeConfig`, so extra or
misspelled keys never cause a parse error; e.g. an object with only one
unknown key decodes to the zero Configuration successfully. -/
theorem decodeConfig_ignores_unknown_keys :
    (∀ ms, decodeConfig (Json.obj (filterKnownDeep ms)) = decodeConfig (Json.obj ms)) ∧
    decodeConfig (Json.obj [("unknownKey", Json.str "x")]) = Except.ok Config.zero := by
  constructor
  · intro ms
    simp [decodeConfig, decodeConfigFields_filterKnownDeep]
  · rfl

end Scrapey
